import Mathlib

/-
  Verification development for the COVID-19 dashboard (covid_dashboard.py).

  The embedding models the Python/pandas program faithfully:
  JSON values are an inductive type whose objects are ordered association
  lists (Python dicts preserve insertion order); pandas DataFrames are a
  column-name list plus a row list of cells; Python exceptions are an
  explicit error type threaded through Except; HTTP traffic is a pure
  environment from URL to an optional response, and each issued GET is
  recorded in a log threaded by a state monad, so statements about which
  network calls were made are provable.
-/

namespace CovidDash

/-- JSON values as parsed by resp.json(); objects keep key insertion order
like Python dicts (upstream JSON objects have distinct keys). -/
inductive Json where
  | null : Json
  | bool : Bool → Json
  | num : Int → Json
  | str : String → Json
  | arr : List Json → Json
  | obj : List (String × Json) → Json

/-- The Python exceptions this program can raise. -/
inductive PyError where
  | connectionError : PyError
  | httpError : Nat → PyError
  | keyError : String → PyError
  | attributeError : PyError
  | typeError : PyError
  | valueError : String → PyError
deriving DecidableEq

/-- An HTTP response: status code and parsed JSON body. -/
structure HttpResponse where
  status : Nat
  body : Json

/-- The network environment: none models a transport failure
(requests raises a ConnectionError), some a delivered response. -/
def FetchEnv : Type := String → Option HttpResponse

/-- The effect monad of the program: a log of fetched URLs over
Python-exception failure. -/
abbrev PyM (α : Type) : Type := StateT (List String) (Except PyError) α

/-- Raise a Python exception. -/
def pyThrow {α : Type} (e : PyError) : PyM α :=
  fun _ => Except.error e

/-- Run a pure fallible computation inside the effect monad. -/
def liftExcept {α : Type} : Except PyError α → PyM α
  | Except.ok a => pure a
  | Except.error e => pyThrow e

/-- Model of requests.get: records the URL in the fetch log and yields
the response, or raises on transport failure. -/
def requests_get (env : FetchEnv) (url : String) : PyM HttpResponse :=
  fun log =>
    match env url with
    | none => Except.error PyError.connectionError
    | some r => Except.ok (r, log ++ [url])

/-- Model of Response.raise_for_status: raises HTTPError exactly on a
4xx or 5xx status code. -/
def raise_for_status (r : HttpResponse) : PyM Unit :=
  if 400 ≤ r.status ∧ r.status < 600 then pyThrow (PyError.httpError r.status)
  else pure ()

/-- First binding of a key in an ordered association list. -/
def jsonLookup : List (String × Json) → String → Option Json
  | [], _ => none
  | (k, v) :: rest, key => if k == key then some v else jsonLookup rest key

/-- Model of dict subscription js[key]: KeyError when the key is absent,
TypeError when the value is not a dict. -/
def Json.subscript (j : Json) (key : String) : Except PyError Json :=
  match j with
  | Json.obj fields =>
      match jsonLookup fields key with
      | some v => Except.ok v
      | none => Except.error (PyError.keyError key)
  | _ => Except.error PyError.typeError

/-- Model of the dict membership test (key in js) on a parsed JSON dict. -/
def Json.containsKey (j : Json) (key : String) : Bool :=
  match j with
  | Json.obj fields => (jsonLookup fields key).isSome
  | _ => false

/-- Model of dict.get(key, default): AttributeError when the receiver is
not a dict. -/
def Json.dictGet (j : Json) (key : String) (dflt : Json) : Except PyError Json :=
  match j with
  | Json.obj fields => Except.ok ((jsonLookup fields key).getD dflt)
  | _ => Except.error PyError.attributeError

/-- Model of list(d.keys()) on a parsed JSON dict. -/
def Json.dictKeys : Json → Except PyError (List String)
  | Json.obj fields => Except.ok (fields.map Prod.fst)
  | _ => Except.error PyError.attributeError

/-- Model of list(d.values()) on a parsed JSON dict. -/
def Json.dictValues : Json → Except PyError (List Json)
  | Json.obj fields => Except.ok (fields.map Prod.snd)
  | _ => Except.error PyError.attributeError

/-- Python truthiness of a JSON value (used by the `if not data` guard). -/
def jsonTruthy : Json → Bool
  | Json.null => false
  | Json.bool b => b
  | Json.num n => n != 0
  | Json.str s => !(s.isEmpty)
  | Json.arr xs => !(xs.isEmpty)
  | Json.obj kvs => !(kvs.isEmpty)

/-- A calendar date as produced by pd.to_datetime. -/
structure Date where
  year : Int
  month : Nat
  day : Nat
deriving DecidableEq

/-- Split a character list on a separator character. -/
def splitOnChar (sep : Char) : List Char → List (List Char)
  | [] => [[]]
  | c :: rest =>
      let r := splitOnChar sep rest
      if c == sep then [] :: r
      else
        match r with
        | [] => [[c]]
        | g :: gs => (c :: g) :: gs

/-- Accumulate the decimal value of a digit string. -/
def digitsValAux : List Char → Nat → Option Nat
  | [], acc => some acc
  | c :: rest, acc =>
      if c.isDigit then digitsValAux rest (acc * 10 + (c.toNat - 48)) else none

/-- Decimal value of a nonempty digit string. -/
def digitsVal (cs : List Char) : Option Nat :=
  if cs.isEmpty then none else digitsValAux cs 0

/-- Model of pd.to_datetime on the m/d/yy date strings of the upstream
feed: two-digit years 0 to 68 resolve to 2000 plus the value and 69 to 99
to 1900 plus the value, following the dateutil convention pandas uses. -/
def parseDate (s : String) : Option Date :=
  match (splitOnChar '/' s.data).map digitsVal with
  | [some m, some d, some y] =>
      if m = 0 ∨ 12 < m ∨ d = 0 ∨ 31 < d then none
      else
        some
          { year := if y < 69 then (2000 + y : Int)
                    else if y < 100 then (1900 + y : Int)
                    else (y : Int)
            month := m
            day := d }
  | _ => none

/-- One cell of a pandas DataFrame; na covers NaN, None and NaT. -/
inductive Cell where
  | na : Cell
  | int : Int → Cell
  | str : String → Cell
  | date : Date → Cell
  | bool : Bool → Cell
  | json : Json → Cell

/-- Convert a JSON value to a DataFrame cell as pandas does, mapping JSON
null to a missing value and keeping nested containers as objects. -/
def Cell.ofJson : Json → Cell
  | Json.null => Cell.na
  | Json.bool b => Cell.bool b
  | Json.num n => Cell.int n
  | Json.str s => Cell.str s
  | Json.arr xs => Cell.json (Json.arr xs)
  | Json.obj kvs => Cell.json (Json.obj kvs)

/-- A pandas DataFrame: ordered column names and rows of cells, each row
listing one cell per column. -/
structure DataFrame where
  cols : List String
  rows : List (List Cell)

/-- One value of the column dictionary passed to the pd.DataFrame
constructor: a list of cells, or the scalar None the source supplies for
a missing recovered series (pandas broadcasts it to a null-filled
column). -/
inductive ColSpec where
  | values : List Cell → ColSpec
  | scalarNa : ColSpec

/-- Lengths of the list-valued entries of a column dictionary. -/
def specLens (specs : List (String × ColSpec)) : List Nat :=
  specs.filterMap (fun p =>
    match p.2 with
    | ColSpec.values xs => some xs.length
    | ColSpec.scalarNa => none)

/-- Cell of a column specification at a row index. -/
def specCell (sp : ColSpec) (i : Nat) : Cell :=
  match sp with
  | ColSpec.values xs => xs.getD i Cell.na
  | ColSpec.scalarNa => Cell.na

/-- Model of the pd.DataFrame dict constructor: all list-valued columns
must have one common length (else ValueError), a dict of only scalars is
a ValueError, and scalar None broadcasts to a null-filled column. -/
def pdDataFrameOfDict (specs : List (String × ColSpec)) : Except PyError DataFrame :=
  match specLens specs with
  | [] => Except.error (PyError.valueError "all scalar values")
  | n :: rest =>
      if rest.all (fun m => m == n) then
        Except.ok
          { cols := specs.map Prod.fst
            rows := (List.range n).map (fun i => specs.map (fun p => specCell p.2 i)) }
      else Except.error (PyError.valueError "arrays must all be same length")

/-- Fields of one record of a record-list payload. -/
def recordFields : Json → Except PyError (List (String × Json))
  | Json.obj fields => Except.ok fields
  | _ => Except.error (PyError.valueError "record is not a dict")

/-- Column names of a record list: union of the record keys in order of
first appearance, as pandas builds them. -/
def recordsColumns (recs : List (List (String × Json))) : List String :=
  recs.foldl
    (fun acc kvs =>
      kvs.foldl (fun a p => if a.contains p.1 then a else a ++ [p.1]) acc)
    []

/-- Model of the pd.DataFrame constructor on a list-of-records payload,
the shape these endpoints return; a record missing a column gets a
missing value there. -/
def pdDataFrameOfRecords (j : Json) : Except PyError DataFrame :=
  match j with
  | Json.arr elems =>
      match elems.mapM recordFields with
      | Except.error e => Except.error e
      | Except.ok recs =>
          let cols := recordsColumns recs
          Except.ok
            { cols := cols
              rows := recs.map (fun kvs => cols.map (fun c =>
                match jsonLookup kvs c with
                | some v => Cell.ofJson v
                | none => Cell.na)) }
  | _ => Except.error (PyError.valueError "unsupported payload shape")

/-- Index of a column name. -/
def DataFrame.colIndex (df : DataFrame) (c : String) : Option Nat :=
  df.cols.findIdx? (fun x => x == c)

/-- Model of column selection df[c]: the cell list of that column, or
KeyError. -/
def DataFrame.getCol (df : DataFrame) (c : String) : Except PyError (List Cell) :=
  match df.colIndex c with
  | some i => Except.ok (df.rows.map (fun r => r.getD i Cell.na))
  | none => Except.error (PyError.keyError c)

/-- Model of column assignment df[c] = xs: replaces the column in place
when it exists, else appends a new rightmost column. -/
def DataFrame.setCol (df : DataFrame) (c : String) (xs : List Cell) : DataFrame :=
  match df.colIndex c with
  | some i => { cols := df.cols, rows := (df.rows.zip xs).map (fun p => p.1.set i p.2) }
  | none => { cols := df.cols ++ [c], rows := (df.rows.zip xs).map (fun p => p.1 ++ [p.2]) }

/-- Model of pd.to_datetime on one cell. -/
def cellToDatetime (c : Cell) : Except PyError Cell :=
  match c with
  | Cell.str s =>
      match parseDate s with
      | some d => Except.ok (Cell.date d)
      | none => Except.error (PyError.valueError s)
  | Cell.date d => Except.ok (Cell.date d)
  | Cell.na => Except.ok Cell.na
  | _ => Except.error (PyError.valueError "to_datetime")

/-- Model of the .dt.year accessor on one cell. -/
def cellYear (c : Cell) : Except PyError Cell :=
  match c with
  | Cell.date d => Except.ok (Cell.int d.year)
  | Cell.na => Except.ok Cell.na
  | _ => Except.error PyError.attributeError

/-- Model of df[c] = pd.to_datetime(df[c]). -/
def DataFrame.toDatetime (df : DataFrame) (c : String) : Except PyError DataFrame :=
  match df.getCol c with
  | Except.error e => Except.error e
  | Except.ok xs =>
      match xs.mapM cellToDatetime with
      | Except.error e => Except.error e
      | Except.ok ys => Except.ok (df.setCol c ys)

/-- Model of the line df[year] = df[date].dt.year. -/
def DataFrame.withYear (df : DataFrame) : Except PyError DataFrame :=
  match df.getCol "date" with
  | Except.error e => Except.error e
  | Except.ok ds =>
      match ds.mapM cellYear with
      | Except.error e => Except.error e
      | Except.ok ys => Except.ok (df.setCol "year" ys)

/-- Whether a cell is an integer within a closed range; the comparison is
false on missing values, as in pandas. -/
def cellIntBetween (lo hi : Int) (c : Cell) : Bool :=
  match c with
  | Cell.int n => decide (lo ≤ n) && decide (n ≤ hi)
  | _ => false

/-- Model of the filter df[(df[year] >= lo) & (df[year] <= hi)]. -/
def DataFrame.filterYearRange (df : DataFrame) (lo hi : Int) : Except PyError DataFrame :=
  match df.getCol "year" with
  | Except.error e => Except.error e
  | Except.ok ys =>
      Except.ok
        { cols := df.cols
          rows := ((df.rows.zip ys).filter (fun p => cellIntBetween lo hi p.2)).map Prod.fst }

/-- Model of the column projection df[[c1, ..., ck]]. -/
def DataFrame.select (df : DataFrame) (cs : List String) : Except PyError DataFrame :=
  match cs.mapM (fun c =>
    match df.colIndex c with
    | some i => Except.ok i
    | none => Except.error (PyError.keyError c)) with
  | Except.error e => Except.error e
  | Except.ok idxs =>
      Except.ok { cols := cs, rows := df.rows.map (fun r => idxs.map (fun i => r.getD i Cell.na)) }

/-- URL of the global historical endpoint. -/
def histAllUrl : String := "https://disease.sh/v3/covid-19/historical/all?lastdays=all"

/-- URL of the per-country historical endpoint. -/
def histCountryUrl (c : String) : String :=
  "https://disease.sh/v3/covid-19/historical/" ++ c ++ "?lastdays=all"

/-- URL of the per-country vaccination endpoint. -/
def vaccineUrl (c : String) : String :=
  "https://disease.sh/v3/covid-19/vaccine/coverage/countries/" ++ c
    ++ "?lastdays=all&fullData=true"

/-- URL of the country snapshot endpoint. -/
def countriesUrl : String := "https://disease.sh/v3/covid-19/countries"

/-- Model of str.lower() on the ASCII country names this program uses. -/
def pyLower (s : String) : String := String.mk (s.data.map Char.toLower)

/-- The recovered entry of the dict literal the source passes to
pd.DataFrame: the values of the recovered dict when the key is present,
else the scalar None. -/
def recoveredSpec (src : Json) : Except PyError ColSpec :=
  if src.containsKey "recovered" then do
    let recJ ← src.dictGet "recovered" (Json.obj [])
    let recVals ← recJ.dictValues
    pure (ColSpec.values (recVals.map Cell.ofJson))
  else
    pure ColSpec.scalarNa

/-- The dict literal the source passes to pd.DataFrame for a history
payload (the global branch and the timeline of the country branch have
the same shape): date column from the keys of the cases dict, confirmed
and deaths columns from the values of their dicts paired positionally,
and the recovered column per recoveredSpec. Fields are evaluated in
source order. -/
def buildHistFrame (src : Json) : Except PyError DataFrame := do
  let cases ← src.subscript "cases"
  let dates ← cases.dictKeys
  let confirmedVals ← cases.dictValues
  let deathsJ ← src.subscript "deaths"
  let deathsVals ← deathsJ.dictValues
  let recSpec ← recoveredSpec src
  pdDataFrameOfDict
    [("date", ColSpec.values (dates.map Cell.str)),
     ("confirmed", ColSpec.values (confirmedVals.map Cell.ofJson)),
     ("deaths", ColSpec.values (deathsVals.map Cell.ofJson)),
     ("recovered", recSpec)]

/-- The shared tail of both table builders: parse the date column, derive
the year column from it, and keep only rows with year 2020 to 2023. -/
def histPipeline (df : DataFrame) : Except PyError DataFrame := do
  let df1 ← df.toDatetime "date"
  let df2 ← df1.withYear
  df2.filterYearRange 2020 2023

/-- The pure table construction of the global branch of load_covid_data:
frame from the top-level dicts, then the date, year and filter pipeline. -/
def covidBodyGlobal (j : Json) : Except PyError DataFrame := do
  let frame ← buildHistFrame j
  histPipeline frame

/-- The pure table construction of the country branch of load_covid_data:
frame from the dicts nested under the timeline key, then the date, year
and filter pipeline. -/
def covidBodyCountry (j : Json) : Except PyError DataFrame := do
  let timeline ← j.dictGet "timeline" (Json.obj [])
  let frame ← buildHistFrame timeline
  histPipeline frame

/-- Model of load_covid_data: fetch the global series when the country is
None or the string global case-insensitively, else the country series
nested under the timeline key; build the frame and run the date, year and
filter pipeline. -/
def load_covid_data (env : FetchEnv) (country : Option String) : PyM DataFrame := do
  if country.isNone || pyLower (country.getD "") == "global" then
    let resp ← requests_get env histAllUrl
    raise_for_status resp
    liftExcept (covidBodyGlobal resp.body)
  else
    let resp ← requests_get env (histCountryUrl (country.getD ""))
    raise_for_status resp
    liftExcept (covidBodyCountry resp.body)

/-- The pure table construction of load_vaccine_data: an absent or empty
timeline yields an empty frame with columns date and total, else the
record list is tabulated and run through the date, year and filter
pipeline. -/
def vaccineBody (j : Json) : Except PyError DataFrame := do
  let data ← j.dictGet "timeline" (Json.arr [])
  if jsonTruthy data then do
    let frame ← pdDataFrameOfRecords data
    histPipeline frame
  else
    pure (DataFrame.mk ["date", "total"] [])

/-- Model of load_vaccine_data: fetch the vaccination series and build
the table with vaccineBody. -/
def load_vaccine_data (env : FetchEnv) (country : String) : PyM DataFrame := do
  let resp ← requests_get env (vaccineUrl country)
  raise_for_status resp
  liftExcept (vaccineBody resp.body)

/-- The per-cell body of the apply on the countryInfo column: dict.get of
one coordinate key, yielding a missing value when the key is absent and
AttributeError when the cell is not a dict. -/
def cellApplyGet (key : String) (c : Cell) : Except PyError Cell :=
  match c with
  | Cell.json (Json.obj fields) =>
      Except.ok
        (match jsonLookup fields key with
         | some v => Cell.ofJson v
         | none => Cell.na)
  | _ => Except.error PyError.attributeError

/-- The pure table construction of load_country_data: tabulate the
records, pull lat and long out of the nested countryInfo dicts, and keep
the six named columns. -/
def countryBody (j : Json) : Except PyError DataFrame := do
  let df ← pdDataFrameOfRecords j
  let ci ← df.getCol "countryInfo"
  let lats ← ci.mapM (cellApplyGet "lat")
  let df1 := df.setCol "lat" lats
  let ci2 ← df1.getCol "countryInfo"
  let longs ← ci2.mapM (cellApplyGet "long")
  let df2 := df1.setCol "long" longs
  df2.select ["country", "cases", "deaths", "recovered", "lat", "long"]

/-- Model of load_country_data: fetch the snapshot list and call .json()
on the response directly, with no raise_for_status, then build the
snapshot table. -/
def load_country_data (env : FetchEnv) : PyM DataFrame := do
  let resp ← requests_get env countriesUrl
  liftExcept (countryBody resp.body)

/-- Group a reversed digit list into blocks of three, least significant
block first. -/
def chunk3 : List Char → List (List Char)
  | [] => []
  | [a] => [[a]]
  | [a, b] => [[a, b]]
  | a :: b :: c :: rest => [a, b, c] :: chunk3 rest

/-- Model of the thousands-separator format of the metric cards: decimal
digits grouped in threes with commas, with a leading minus sign on
negative values. -/
def formatThousands (n : Int) : String :=
  let sign := if n < 0 then "-" else ""
  let revDigits := (Nat.toDigits 10 n.natAbs).reverse
  sign ++ String.mk ((List.intercalate [','] (chunk3 revDigits)).reverse)

/-- Integer value of a cell under the int() conversion of the metric
lines; converting a missing value (the max of an empty or all-null
column) raises ValueError. -/
def pyInt : Cell → Except PyError Int
  | Cell.int n => Except.ok n
  | _ => Except.error (PyError.valueError "cannot convert to int")

/-- One fold step of the column max, skipping non-numeric cells as the
pandas max does. -/
def maxStep (acc c : Cell) : Cell :=
  match c with
  | Cell.int n =>
      match acc with
      | Cell.int m => Cell.int (max m n)
      | _ => Cell.int n
  | _ => acc

/-- Model of the skipna column max: the largest integer cell, or a
missing value when there is none. -/
def colMaxCell (xs : List Cell) : Cell := xs.foldl maxStep Cell.na

/-- Whether a cell is non-missing, as the notna test reports. -/
def cellNotNa : Cell → Bool
  | Cell.na => false
  | _ => true

/-- One step of the pandas unique scan on the year column: append an
integer cell not seen before. -/
def uStep (acc : List Int) (c : Cell) : List Int :=
  match c with
  | Cell.int n => if acc.contains n then acc else acc ++ [n]
  | _ => acc

/-- Integer cells of a column in order of first appearance, as the
pandas unique reports them for the year column. -/
def uniqueInts (xs : List Cell) : List Int :=
  xs.foldl uStep []

/-- Model of sorted(df[year].unique()): the distinct years ascending. -/
def availableYearsOf (ys : List Cell) : List Int :=
  List.insertionSort (fun a b => a ≤ b) (uniqueInts ys)

/-- Model of the year selectbox: the user choice when it is among the
offered options, else the first option (the selectbox default), and no
value at all when no option is offered. -/
def selectFromOptions (options : List Int) (choice : Int) : Option Int :=
  if options.contains choice then some choice else options.head?

/-- Whether a cell equals a given integer, false on missing values. -/
def cellEqInt (c : Cell) (n : Int) : Bool :=
  match c with
  | Cell.int m => m == n
  | _ => false

/-- Model of the filter df[df[year] == selected_year]; comparison with no
selected value matches no row. -/
def DataFrame.filterYearEq (df : DataFrame) (y : Option Int) : Except PyError DataFrame :=
  match df.getCol "year" with
  | Except.error e => Except.error e
  | Except.ok ys =>
      match y with
      | some n =>
          Except.ok
            { cols := df.cols
              rows := ((df.rows.zip ys).filter (fun p => cellEqInt p.2 n)).map Prod.fst }
      | none => Except.ok { cols := df.cols, rows := [] }

/-- The user-visible outputs of one render pass; static titles and
styling parameters are presentation constants and are not modelled. -/
inductive RenderAction where
  | bubbleMap : DataFrame → RenderAction
  | metric : String → String → RenderAction
  | lineChart : DataFrame → String → List String → RenderAction
  | subheader : String → RenderAction
  | warning : String → RenderAction
  | info : String → RenderAction

/-- The value of the recovered metric card: the int of the column max
when the recovered series has a non-null entry, else None. -/
def totalRecovered (recCol : List Cell) : Except PyError (Option Int) :=
  if recCol.any cellNotNa then do
    let v ← pyInt (colMaxCell recCol)
    pure (some v)
  else
    pure (none : Option Int)

/-- The metric cards and the trend chart of lines 102 to 120: the max of
each series in the year-filtered table converted to int and formatted
with thousands separators, the recovered card showing N/A when the series
has no non-null entry, and the trend chart carrying the recovered line
only when the recovered total exists. -/
def buildMetricsAndTrend (filtered : DataFrame) : Except PyError (List RenderAction) := do
  let confCol ← filtered.getCol "confirmed"
  let total_confirmed ← pyInt (colMaxCell confCol)
  let deathsCol ← filtered.getCol "deaths"
  let total_deaths ← pyInt (colMaxCell deathsCol)
  let recCol ← filtered.getCol "recovered"
  let total_recovered ← totalRecovered recCol
  let y_cols := ["confirmed", "deaths"]
    ++ (if total_recovered.isSome then ["recovered"] else [])
  pure
    [RenderAction.metric "Total Confirmed" (formatThousands total_confirmed),
     RenderAction.metric "Total Deaths" (formatThousands total_deaths),
     RenderAction.metric "Total Recovered"
       (match total_recovered with
        | some v => formatThousands v
        | none => "N/A"),
     RenderAction.lineChart filtered "date" y_cols]

/-- The year selectbox and metric section of lines 97 to 120, as a pure
function of the loaded history table and the year the user picks. -/
def yearSelectAndMetrics (df : DataFrame) (yearChoice : Int) : Except PyError (List RenderAction) := do
  let yearsCol ← df.getCol "year"
  let available_years := availableYearsOf yearsCol
  let selected_year := selectFromOptions available_years yearChoice
  let filtered ← df.filterYearEq selected_year
  buildMetricsAndTrend filtered

/-- The vaccine section of lines 125 to 138 as a pure function of the
loaded vaccination table: a warning when the table is empty, else the
total card and the vaccination line chart. -/
def vaccineSection (c : String) (df_vaccine : DataFrame) : Except PyError (List RenderAction) :=
  if df_vaccine.rows.isEmpty then
    Except.ok [RenderAction.warning ("No vaccination data available for " ++ c ++ ".")]
  else
    match df_vaccine.getCol "total" with
    | Except.error e => Except.error e
    | Except.ok totCol =>
        match pyInt (colMaxCell totCol) with
        | Except.error e => Except.error e
        | Except.ok total_vaccines =>
            Except.ok
              [RenderAction.subheader ("COVID-19 Vaccinations in " ++ c),
               RenderAction.metric "Total Vaccines Administered" (formatThousands total_vaccines),
               RenderAction.lineChart df_vaccine "date" ["total"]]

/-- The fixed option list of the country selectbox. -/
def countryOptions : List String :=
  ["Global", "USA", "India", "Brazil", "Germany", "France", "UK", "China", "Japan"]

/-- The mapping from the selectbox choice to the country argument:
Global maps to no country filter. -/
def useCountry (choice : String) : Option String :=
  if choice != "Global" then some choice else none

/-- The selections a render pass reads from the sidebar widgets. -/
structure UserInput where
  countryChoice : String
  yearChoice : Int

/-- The conditional vaccine block: fetch and render vaccination data
only for a specific country, else emit the info message. -/
def vaccineSectionActs (env : FetchEnv) (use_country : Option String) :
    PyM (List RenderAction) :=
  match use_country with
  | some c => do
      let df_vaccine ← load_vaccine_data env c
      liftExcept (vaccineSection c df_vaccine)
  | none => pure [RenderAction.info "Select a specific country to view vaccination data."]

/-- The module-level script as one render pass: load the snapshot table
and draw the bubble map, map the sidebar selection to the country
argument, load the history table, run the year filter and metric section,
and run the vaccine block. -/
def renderPass (env : FetchEnv) (inp : UserInput) : PyM (List RenderAction) := do
  let dfCountries ← load_country_data env
  let use_country := useCountry inp.countryChoice
  let df ← load_covid_data env use_country
  let mainActs ← liftExcept (yearSelectAndMetrics df inp.yearChoice)
  let vaxActs ← vaccineSectionActs env use_country
  pure ([RenderAction.bubbleMap dfCountries] ++ mainActs ++ vaxActs)

/-- A key of the result cache: the decorated function and its argument
values. -/
structure CacheKey where
  fn : String
  args : List (Option String)
deriving DecidableEq

/-- One stored cache entry: key, store time in seconds, cached table. -/
structure CacheEntry where
  key : CacheKey
  storedAt : Nat
  value : DataFrame

/-- Entry stored under a key, if any. -/
def cacheLookup (db : List CacheEntry) (k : CacheKey) : Option CacheEntry :=
  db.find? (fun e => decide (e.key = k))

/-- Modelled from the spec: the memoization semantics of the st.cache_data
decorator, whose implementation is not part of this repository. A call is
keyed by function identity and argument values; an entry younger than the
ttl answers the call without running the body (so without any network
call), and otherwise the body runs afresh and the entry is stored with
the current time. -/
def cachedCall (ttl : Nat) (k : CacheKey) (now : Nat) (body : PyM DataFrame)
    (db : List CacheEntry) (log : List String) :
    Except PyError (DataFrame × List CacheEntry × List String) :=
  match cacheLookup db k with
  | some e =>
      if now < e.storedAt + ttl then
        Except.ok (e.value, db, log)
      else
        match body.run log with
        | Except.error err => Except.error err
        | Except.ok (v, log2) =>
            Except.ok
              (v, CacheEntry.mk k now v :: db.filter (fun e2 => !(decide (e2.key = k))), log2)
  | none =>
      match body.run log with
      | Except.error err => Except.error err
      | Except.ok (v, log2) => Except.ok (v, CacheEntry.mk k now v :: db, log2)

/-- The cached entry point for load_covid_data, with its 3600 second ttl. -/
def cachedLoadCovid (env : FetchEnv) (country : Option String) (now : Nat)
    (db : List CacheEntry) (log : List String) :
    Except PyError (DataFrame × List CacheEntry × List String) :=
  cachedCall 3600 (CacheKey.mk "load_covid_data" [country]) now
    (load_covid_data env country) db log

/-- The cached entry point for load_vaccine_data, with its 3600 second ttl. -/
def cachedLoadVaccine (env : FetchEnv) (country : String) (now : Nat)
    (db : List CacheEntry) (log : List String) :
    Except PyError (DataFrame × List CacheEntry × List String) :=
  cachedCall 3600 (CacheKey.mk "load_vaccine_data" [some country]) now
    (load_vaccine_data env country) db log

/-- The cached entry point for load_country_data, with its 3600 second ttl. -/
def cachedLoadCountry (env : FetchEnv) (now : Nat)
    (db : List CacheEntry) (log : List String) :
    Except PyError (DataFrame × List CacheEntry × List String) :=
  cachedCall 3600 (CacheKey.mk "load_country_data" []) now
    (load_country_data env) db log

/-! ### Run equations for the effect monad -/

theorem requests_get_run (env : FetchEnv) (url : String) (log : List String) :
    (requests_get env url).run log =
      match env url with
      | none => Except.error PyError.connectionError
      | some r => Except.ok (r, log ++ [url]) := rfl

theorem liftExcept_run {α : Type} (x : Except PyError α) (log : List String) :
    (liftExcept x).run log =
      match x with
      | Except.ok a => Except.ok (a, log)
      | Except.error e => Except.error e := by
  cases x <;> rfl

theorem bind_run {α β : Type} (x : PyM α) (f : α → PyM β) (log : List String) :
    (x >>= f).run log =
      match x.run log with
      | Except.error e => Except.error e
      | Except.ok p => (f p.1).run p.2 := by
  cases h : x.run log <;>
    (simp only [StateT.run] at h
     simp [Bind.bind, StateT.bind, StateT.run, Except.bind, h])

theorem raise_for_status_run (r : HttpResponse) (log : List String) :
    (raise_for_status r).run log =
      if 400 ≤ r.status ∧ r.status < 600 then Except.error (PyError.httpError r.status)
      else Except.ok ((), log) := by
  unfold raise_for_status
  split
  · rfl
  · rfl

/-- Composite shape shared by the checked fetches: GET, status check,
then a pure table construction. -/
def fetchChecked (env : FetchEnv) (url : String) (body : Json → Except PyError DataFrame) :
    PyM DataFrame := do
  let resp ← requests_get env url
  raise_for_status resp
  liftExcept (body resp.body)

theorem fetchChecked_run (env : FetchEnv) (url : String)
    (body : Json → Except PyError DataFrame) (log : List String) :
    (fetchChecked env url body).run log =
      match env url with
      | none => Except.error PyError.connectionError
      | some r =>
          if 400 ≤ r.status ∧ r.status < 600 then Except.error (PyError.httpError r.status)
          else
            match body r.body with
            | Except.error e => Except.error e
            | Except.ok df => Except.ok (df, log ++ [url]) := by
  unfold fetchChecked
  rw [bind_run, requests_get_run]
  cases henv : env url with
  | none => rfl
  | some r =>
    dsimp only
    rw [bind_run, raise_for_status_run]
    by_cases hst : 400 ≤ r.status ∧ r.status < 600
    · rw [if_pos hst, if_pos hst]
    · rw [if_neg hst, if_neg hst]
      dsimp only
      rw [liftExcept_run]
      cases hb : body r.body <;> rfl

theorem load_covid_eq_fetchChecked_global (env : FetchEnv) (country : Option String)
    (h : (country.isNone || pyLower (country.getD "") == "global") = true) :
    load_covid_data env country = fetchChecked env histAllUrl covidBodyGlobal := by
  unfold load_covid_data fetchChecked
  rw [if_pos h]

theorem load_covid_eq_fetchChecked_country (env : FetchEnv) (country : Option String)
    (h : (country.isNone || pyLower (country.getD "") == "global") = false) :
    load_covid_data env country =
      fetchChecked env (histCountryUrl (country.getD "")) covidBodyCountry := by
  unfold load_covid_data fetchChecked
  rw [if_neg]
  simp [h]

theorem load_vaccine_eq_fetchChecked (env : FetchEnv) (country : String) :
    load_vaccine_data env country = fetchChecked env (vaccineUrl country) vaccineBody := rfl

theorem load_country_run (env : FetchEnv) (log : List String) :
    (load_country_data env).run log =
      match env countriesUrl with
      | none => Except.error PyError.connectionError
      | some r =>
          match countryBody r.body with
          | Except.error e => Except.error e
          | Except.ok df => Except.ok (df, log ++ [countriesUrl]) := by
  unfold load_country_data
  rw [bind_run, requests_get_run]
  cases henv : env countriesUrl with
  | none => rfl
  | some r =>
    dsimp only
    rw [liftExcept_run]
    cases hb : countryBody r.body <;> rfl

/-! ### Inversion lemmas for the fetch wrappers -/

theorem fetchChecked_ok_inv {env : FetchEnv} {url : String}
    {body : Json → Except PyError DataFrame} {df : DataFrame} {log log2 : List String}
    (h : (fetchChecked env url body).run log = Except.ok (df, log2)) :
    ∃ r, env url = some r ∧ ¬(400 ≤ r.status ∧ r.status < 600) ∧
      body r.body = Except.ok df ∧ log2 = log ++ [url] := by
  rw [fetchChecked_run] at h
  cases henv : env url with
  | none => rw [henv] at h; exact absurd h (by simp)
  | some r =>
    rw [henv] at h
    dsimp only at h
    by_cases hst : 400 ≤ r.status ∧ r.status < 600
    · rw [if_pos hst] at h
      exact absurd h (by simp)
    · rw [if_neg hst] at h
      cases hb : body r.body with
      | error e => rw [hb] at h; exact absurd h (by simp)
      | ok df2 =>
        rw [hb] at h
        dsimp only at h
        rw [Except.ok.injEq, Prod.mk.injEq] at h
        exact ⟨r, rfl, hst, h.1 ▸ hb, h.2.symm⟩

theorem fetchChecked_status_error {env : FetchEnv} {url : String}
    {body : Json → Except PyError DataFrame} {r : HttpResponse} (log : List String)
    (henv : env url = some r) (h4 : 400 ≤ r.status) (h6 : r.status < 600) :
    (fetchChecked env url body).run log = Except.error (PyError.httpError r.status) := by
  rw [fetchChecked_run, henv]
  dsimp only
  rw [if_pos ⟨h4, h6⟩]

theorem fetchChecked_conn_error {env : FetchEnv} {url : String}
    {body : Json → Except PyError DataFrame} (log : List String)
    (henv : env url = none) :
    (fetchChecked env url body).run log = Except.error PyError.connectionError := by
  rw [fetchChecked_run, henv]

theorem load_country_ok_inv {env : FetchEnv} {df : DataFrame} {log log2 : List String}
    (h : (load_country_data env).run log = Except.ok (df, log2)) :
    ∃ r, env countriesUrl = some r ∧ countryBody r.body = Except.ok df ∧
      log2 = log ++ [countriesUrl] := by
  rw [load_country_run] at h
  cases henv : env countriesUrl with
  | none => rw [henv] at h; exact absurd h (by simp)
  | some r =>
    rw [henv] at h
    dsimp only at h
    cases hb : countryBody r.body with
    | error e => rw [hb] at h; exact absurd h (by simp)
    | ok df2 =>
      rw [hb] at h
      dsimp only at h
      rw [Except.ok.injEq, Prod.mk.injEq] at h
      exact ⟨r, rfl, h.1 ▸ hb, h.2.symm⟩

/-- The branch condition of load_covid_data holds for the None country. -/
theorem covid_cond_none :
    ((none : Option String).isNone
      || pyLower ((none : Option String).getD "") == "global") = true := rfl

/-- The branch condition of load_covid_data for a Some country reduces to
the lowercase test. -/
theorem covid_cond_some (c : String) (h : (pyLower c == "global") = false) :
    ((some c).isNone || pyLower ((some c).getD "") == "global") = false := h

/-! ### Claim C1: fatal errors on fetch failure -/

/-- One upstream country record used by several concrete scenarios. -/
def snapshotRecord : Json :=
  Json.obj
    [("country", Json.str "X"), ("cases", Json.num 5), ("deaths", Json.num 1),
     ("recovered", Json.num 0),
     ("countryInfo", Json.obj [("lat", Json.num 10), ("long", Json.num 20)])]

/-- An environment whose snapshot endpoint answers with status 404 and a
well-formed JSON body. -/
def c1Env : FetchEnv := fun url =>
  if url == countriesUrl then some (HttpResponse.mk 404 (Json.arr [snapshotRecord])) else none

/-- The table the snapshot builder produces from that 404 response. -/
def c1Df : DataFrame :=
  DataFrame.mk ["country", "cases", "deaths", "recovered", "lat", "long"]
    [[Cell.str "X", Cell.int 5, Cell.int 1, Cell.int 0, Cell.int 10, Cell.int 20]]

/-- C1 counterexample: the country snapshot fetch does not abort on a
non-success HTTP status. With the snapshot endpoint answering status 404,
load_country_data returns a table rather than a fatal error, because the
source calls .json() on the response without raise_for_status. -/
theorem c1_counterexample :
    (load_country_data c1Env).run [] = Except.ok (c1Df, [countriesUrl])
      ∧ c1Env countriesUrl = some (HttpResponse.mk 404 (Json.arr [snapshotRecord])) :=
  ⟨rfl, rfl⟩

/-- C1 amended: for the global history, country history and country
vaccination fetches, a 4xx or 5xx status or a transport failure aborts
the call with a fatal error, and a successful call issues exactly one
GET (no retry, no partial result); for the country snapshot list only a
transport failure aborts, while a non-success status body is processed
as if successful. -/
theorem c1_theorem :
    (∀ env log (r : HttpResponse), env histAllUrl = some r → 400 ≤ r.status → r.status < 600 →
        (load_covid_data env none).run log = Except.error (PyError.httpError r.status))
  ∧ (∀ env log, env histAllUrl = none →
        (load_covid_data env none).run log = Except.error PyError.connectionError)
  ∧ (∀ env log c (r : HttpResponse), (pyLower c == "global") = false →
        env (histCountryUrl c) = some r → 400 ≤ r.status → r.status < 600 →
        (load_covid_data env (some c)).run log = Except.error (PyError.httpError r.status))
  ∧ (∀ env log c, (pyLower c == "global") = false → env (histCountryUrl c) = none →
        (load_covid_data env (some c)).run log = Except.error PyError.connectionError)
  ∧ (∀ env log c (r : HttpResponse), env (vaccineUrl c) = some r →
        400 ≤ r.status → r.status < 600 →
        (load_vaccine_data env c).run log = Except.error (PyError.httpError r.status))
  ∧ (∀ env log c, env (vaccineUrl c) = none →
        (load_vaccine_data env c).run log = Except.error PyError.connectionError)
  ∧ (∀ env log, env countriesUrl = none →
        (load_country_data env).run log = Except.error PyError.connectionError)
  ∧ (∀ env log df log2, (load_covid_data env none).run log = Except.ok (df, log2) →
        log2 = log ++ [histAllUrl])
  ∧ (∀ env log c df log2, (pyLower c == "global") = false →
        (load_covid_data env (some c)).run log = Except.ok (df, log2) →
        log2 = log ++ [histCountryUrl c])
  ∧ (∀ env log c df log2, (load_vaccine_data env c).run log = Except.ok (df, log2) →
        log2 = log ++ [vaccineUrl c])
  ∧ (∀ env log df log2, (load_country_data env).run log = Except.ok (df, log2) →
        log2 = log ++ [countriesUrl]) := by
  refine ⟨?_, ?_, ?_, ?_, ?_, ?_, ?_, ?_, ?_, ?_, ?_⟩
  · intro env log r henv h4 h6
    rw [load_covid_eq_fetchChecked_global env none covid_cond_none]
    exact fetchChecked_status_error log henv h4 h6
  · intro env log henv
    rw [load_covid_eq_fetchChecked_global env none covid_cond_none]
    exact fetchChecked_conn_error log henv
  · intro env log c r hc henv h4 h6
    rw [load_covid_eq_fetchChecked_country env (some c) (covid_cond_some c hc)]
    exact fetchChecked_status_error log henv h4 h6
  · intro env log c hc henv
    rw [load_covid_eq_fetchChecked_country env (some c) (covid_cond_some c hc)]
    exact fetchChecked_conn_error log henv
  · intro env log c r henv h4 h6
    rw [load_vaccine_eq_fetchChecked]
    exact fetchChecked_status_error log henv h4 h6
  · intro env log c henv
    rw [load_vaccine_eq_fetchChecked]
    exact fetchChecked_conn_error log henv
  · intro env log henv
    rw [load_country_run, henv]
  · intro env log df log2 h
    rw [load_covid_eq_fetchChecked_global env none covid_cond_none] at h
    exact (fetchChecked_ok_inv h).choose_spec.2.2.2
  · intro env log c df log2 hc h
    rw [load_covid_eq_fetchChecked_country env (some c) (covid_cond_some c hc)] at h
    exact (fetchChecked_ok_inv h).choose_spec.2.2.2
  · intro env log c df log2 h
    rw [load_vaccine_eq_fetchChecked] at h
    exact (fetchChecked_ok_inv h).choose_spec.2.2.2
  · intro env log df log2 h
    exact (load_country_ok_inv h).choose_spec.2.2

/-- An environment with a 500 status on the global history endpoint and
transport failures everywhere else. -/
def c1WitnessEnv : FetchEnv := fun url =>
  if url == histAllUrl then some (HttpResponse.mk 500 Json.null) else none

/-- Witness for C1 at concrete inputs: a 500 on the global history fetch
raises HTTPError and a transport failure on the vaccination fetch raises
ConnectionError. -/
theorem c1_witness :
    (load_covid_data c1WitnessEnv none).run [] = Except.error (PyError.httpError 500)
  ∧ (load_vaccine_data c1WitnessEnv "USA").run [] = Except.error PyError.connectionError := by
  constructor
  · exact c1_theorem.1 c1WitnessEnv [] (HttpResponse.mk 500 Json.null) rfl (by decide) (by decide)
  · exact c1_theorem.2.2.2.2.2.1 c1WitnessEnv [] "USA" rfl

/-! ### Claim C2: the year filter -/

theorem exceptBind_ok {α β : Type} {x : Except PyError α} {f : α → Except PyError β} {b : β}
    (h : (x >>= f) = Except.ok b) : ∃ a, x = Except.ok a ∧ f a = Except.ok b := by
  cases hx : x with
  | error e => rw [hx] at h; exact absurd h (by simp [Bind.bind, Except.bind])
  | ok a =>
    rw [hx] at h
    exact ⟨a, rfl, by simpa [Bind.bind, Except.bind] using h⟩

theorem zip_map_self {α β : Type} (f : α → β) (l : List α) :
    l.zip (l.map f) = l.map (fun a => (a, f a)) := by
  induction l with
  | nil => rfl
  | cons a t ih => simp [ih]

theorem getCol_inv {df : DataFrame} {c : String} {ys : List Cell}
    (h : df.getCol c = Except.ok ys) :
    ∃ i, df.colIndex c = some i ∧ ys = df.rows.map (fun r => r.getD i Cell.na) := by
  unfold DataFrame.getCol at h
  cases hidx : df.colIndex c with
  | none => rw [hidx] at h; exact absurd h (by simp)
  | some i =>
    rw [hidx] at h
    dsimp only at h
    rw [Except.ok.injEq] at h
    exact ⟨i, rfl, h.symm⟩

theorem filterYearRange_inv {df df2 : DataFrame} {lo hi : Int}
    (h : DataFrame.filterYearRange df lo hi = Except.ok df2) :
    ∃ i, df.colIndex "year" = some i ∧ df2.cols = df.cols ∧
      df2.rows = df.rows.filter (fun r => cellIntBetween lo hi (r.getD i Cell.na)) := by
  unfold DataFrame.filterYearRange at h
  cases hg : df.getCol "year" with
  | error e => rw [hg] at h; exact absurd h (by simp)
  | ok ys =>
    rw [hg] at h
    dsimp only at h
    rw [Except.ok.injEq] at h
    obtain ⟨i, hidx, hys⟩ := getCol_inv hg
    refine ⟨i, hidx, ?_, ?_⟩
    · rw [← h]
    · rw [← h]
      dsimp only
      rw [hys, zip_map_self, List.filter_map, List.map_map]
      simp [Function.comp_def]

theorem cellIntBetween_true_iff {lo hi : Int} {c : Cell} :
    cellIntBetween lo hi c = true ↔ ∃ n, c = Cell.int n ∧ lo ≤ n ∧ n ≤ hi := by
  cases c <;> simp [cellIntBetween]

/-- Year field of a row of a table, read off the year column. -/
def rowYearInt (df : DataFrame) (row : List Cell) : Option Int :=
  match df.colIndex "year" with
  | some i =>
      match row.getD i Cell.na with
      | Cell.int n => some n
      | _ => none
  | none => none

theorem histPipeline_filter_inv {frame df : DataFrame}
    (h : histPipeline frame = Except.ok df) :
    ∃ dfPre, DataFrame.filterYearRange dfPre 2020 2023 = Except.ok df := by
  unfold histPipeline at h
  obtain ⟨df1, h1, h2⟩ := exceptBind_ok h
  obtain ⟨df2, h3, h4⟩ := exceptBind_ok h2
  exact ⟨df2, h4⟩

theorem load_covid_ok_filter {env : FetchEnv} {country : Option String}
    {log log2 : List String} {df : DataFrame}
    (h : (load_covid_data env country).run log = Except.ok (df, log2)) :
    ∃ dfPre, DataFrame.filterYearRange dfPre 2020 2023 = Except.ok df := by
  by_cases hc : (country.isNone || pyLower (country.getD "") == "global") = true
  · rw [load_covid_eq_fetchChecked_global env country hc] at h
    obtain ⟨r, _, _, hbody, _⟩ := fetchChecked_ok_inv h
    unfold covidBodyGlobal at hbody
    obtain ⟨frame, _, hp⟩ := exceptBind_ok hbody
    exact histPipeline_filter_inv hp
  · rw [load_covid_eq_fetchChecked_country env country (Bool.eq_false_iff.mpr hc)] at h
    obtain ⟨r, _, _, hbody, _⟩ := fetchChecked_ok_inv h
    unfold covidBodyCountry at hbody
    obtain ⟨tl, _, hrest⟩ := exceptBind_ok hbody
    obtain ⟨frame, _, hp⟩ := exceptBind_ok hrest
    exact histPipeline_filter_inv hp

theorem filtered_row_year {dfPre df : DataFrame}
    (hfil : DataFrame.filterYearRange dfPre 2020 2023 = Except.ok df) :
    ∀ row ∈ df.rows, ∃ n, rowYearInt df row = some n ∧ 2020 ≤ n ∧ n ≤ 2023 := by
  intro row hrow
  obtain ⟨i, hidx, hcols, hrows⟩ := filterYearRange_inv hfil
  rw [hrows] at hrow
  rw [List.mem_filter] at hrow
  obtain ⟨n, hcell, hlo, hhi⟩ := cellIntBetween_true_iff.mp hrow.2
  refine ⟨n, ?_, hlo, hhi⟩
  have hidx2 : df.colIndex "year" = some i := by
    unfold DataFrame.colIndex at hidx ⊢
    rw [hcols]
    exact hidx
  unfold rowYearInt
  rw [hidx2]
  dsimp only
  rw [hcell]

/-- C2: every row of every history table and every vaccination table has
an integer year field in 2020 to 2023, and the year filter keeps exactly
the rows whose year field lies in the closed range. -/
theorem c2_theorem :
    (∀ env country log df log2,
        (load_covid_data env country).run log = Except.ok (df, log2) →
        ∀ row ∈ df.rows, ∃ n, rowYearInt df row = some n ∧ 2020 ≤ n ∧ n ≤ 2023)
  ∧ (∀ env c log df log2,
        (load_vaccine_data env c).run log = Except.ok (df, log2) →
        ∀ row ∈ df.rows, ∃ n, rowYearInt df row = some n ∧ 2020 ≤ n ∧ n ≤ 2023)
  ∧ (∀ df lo hi df2, DataFrame.filterYearRange df lo hi = Except.ok df2 →
        ∃ i, df.colIndex "year" = some i ∧ df2.cols = df.cols ∧
          df2.rows = df.rows.filter (fun r => cellIntBetween lo hi (r.getD i Cell.na))) := by
  refine ⟨?_, ?_, ?_⟩
  · intro env country log df log2 h
    obtain ⟨dfPre, hfil⟩ := load_covid_ok_filter h
    exact filtered_row_year hfil
  · intro env c log df log2 h
    rw [load_vaccine_eq_fetchChecked] at h
    obtain ⟨r, _, _, hbody, _⟩ := fetchChecked_ok_inv h
    unfold vaccineBody at hbody
    obtain ⟨data, _, hrest⟩ := exceptBind_ok hbody
    by_cases ht : jsonTruthy data = true
    · rw [if_pos ht] at hrest
      obtain ⟨frame, _, hp⟩ := exceptBind_ok hrest
      obtain ⟨dfPre, hfil⟩ := histPipeline_filter_inv hp
      exact filtered_row_year hfil
    · rw [if_neg ht] at hrest
      have hdf : DataFrame.mk ["date", "total"] [] = df := by
        simpa [Pure.pure, Except.pure] using hrest
      intro row hrow
      rw [← hdf] at hrow
      exact absurd hrow (by simp)
  · intro df lo hi df2 h
    exact filterYearRange_inv h

/-- A global history body with one date outside the year range. -/
def histBody1 : Json :=
  Json.obj
    [("cases",
      Json.obj [("1/1/19", Json.num 0), ("1/22/20", Json.num 1), ("1/23/20", Json.num 3)]),
     ("deaths",
      Json.obj [("1/1/19", Json.num 0), ("1/22/20", Json.num 0), ("1/23/20", Json.num 1)])]

/-- An environment whose global history endpoint answers with that body. -/
def env1 : FetchEnv := fun url =>
  if url == histAllUrl then some (HttpResponse.mk 200 histBody1) else none

/-- The history table built from that body: the 2019 row is discarded
and the recovered column is null-filled. -/
def histDf1 : DataFrame :=
  DataFrame.mk ["date", "confirmed", "deaths", "recovered", "year"]
    [[Cell.date (Date.mk 2020 1 22), Cell.int 1, Cell.int 0, Cell.na, Cell.int 2020],
     [Cell.date (Date.mk 2020 1 23), Cell.int 3, Cell.int 1, Cell.na, Cell.int 2020]]

/-- Witness for C2 at a concrete run: the first retained row of the
concrete global table has year 2020, inside the range. -/
theorem c2_witness :
    ∃ n, rowYearInt histDf1
        [Cell.date (Date.mk 2020 1 22), Cell.int 1, Cell.int 0, Cell.na, Cell.int 2020]
        = some n ∧ 2020 ≤ n ∧ n ≤ 2023 :=
  c2_theorem.1 env1 none [] histDf1 [histAllUrl] rfl _ (by simp [histDf1])

/-! ### Claim C3: positional pairing of the history dicts -/

theorem range_map_getD {n : Nat} (ys : List Cell) (h : ys.length = n) :
    (List.range n).map (fun i => ys.getD i Cell.na) = ys := by
  apply List.ext_getElem
  · simp [h]
  · intro i h1 h2
    have hi : i < ys.length := by omega
    simp [List.getD_eq_getElem, hi]

theorem getCol_of_cols_mk (cols : List String) (rows : List (List Cell)) (c : String) (i : Nat)
    (h : List.findIdx? (fun x => x == c) cols = some i) :
    (DataFrame.mk cols rows).getCol c = Except.ok (rows.map (fun r => r.getD i Cell.na)) := by
  unfold DataFrame.getCol DataFrame.colIndex
  dsimp only
  rw [h]

theorem buildHistFrame_positional (kvsC kvsD : List (String × Json))
    (hlen : kvsD.length = kvsC.length) :
    buildHistFrame (Json.obj [("cases", Json.obj kvsC), ("deaths", Json.obj kvsD)]) =
      Except.ok (DataFrame.mk ["date", "confirmed", "deaths", "recovered"]
        ((kvsC.zip kvsD).map (fun p =>
          [Cell.str p.1.1, Cell.ofJson p.1.2, Cell.ofJson p.2.2, Cell.na]))) := by
  have h1 : buildHistFrame (Json.obj [("cases", Json.obj kvsC), ("deaths", Json.obj kvsD)]) =
      pdDataFrameOfDict
        [("date", ColSpec.values ((kvsC.map Prod.fst).map Cell.str)),
         ("confirmed", ColSpec.values ((kvsC.map Prod.snd).map Cell.ofJson)),
         ("deaths", ColSpec.values ((kvsD.map Prod.snd).map Cell.ofJson)),
         ("recovered", ColSpec.scalarNa)] := rfl
  rw [h1]
  unfold pdDataFrameOfDict specLens
  simp only [List.filterMap_cons, List.filterMap_nil, List.length_map, hlen]
  simp only [List.all_cons, List.all_nil, beq_self_eq_true, Bool.and_self, Bool.and_true, if_true]
  rw [Except.ok.injEq]
  refine congrArg (DataFrame.mk _) ?_
  apply List.ext_getElem
  · simp [hlen]
  · intro i h1 h2
    simp only [List.getElem_map, List.getElem_range, List.getElem_zip]
    have hiC : i < kvsC.length := by simpa using h1
    have hiD : i < kvsD.length := by rw [hlen]; simpa using h1
    simp [List.getD_eq_getElem, List.getElem_map, hiC, hiD, specCell]

theorem buildHistFrame_positional_rec (kvsC kvsD kvsR : List (String × Json))
    (hlenD : kvsD.length = kvsC.length) (hlenR : kvsR.length = kvsC.length) :
    ∃ df,
      buildHistFrame (Json.obj
          [("cases", Json.obj kvsC), ("deaths", Json.obj kvsD), ("recovered", Json.obj kvsR)])
        = Except.ok df
      ∧ df.cols = ["date", "confirmed", "deaths", "recovered"]
      ∧ df.getCol "date" = Except.ok (kvsC.map (fun p => Cell.str p.1))
      ∧ df.getCol "confirmed" = Except.ok (kvsC.map (fun p => Cell.ofJson p.2))
      ∧ df.getCol "deaths" = Except.ok (kvsD.map (fun p => Cell.ofJson p.2))
      ∧ df.getCol "recovered" = Except.ok (kvsR.map (fun p => Cell.ofJson p.2)) := by
  have h1 : buildHistFrame (Json.obj
      [("cases", Json.obj kvsC), ("deaths", Json.obj kvsD), ("recovered", Json.obj kvsR)]) =
      pdDataFrameOfDict
        [("date", ColSpec.values ((kvsC.map Prod.fst).map Cell.str)),
         ("confirmed", ColSpec.values ((kvsC.map Prod.snd).map Cell.ofJson)),
         ("deaths", ColSpec.values ((kvsD.map Prod.snd).map Cell.ofJson)),
         ("recovered", ColSpec.values ((kvsR.map Prod.snd).map Cell.ofJson))] := rfl
  rw [h1]
  unfold pdDataFrameOfDict specLens
  simp only [List.filterMap_cons, List.filterMap_nil, List.length_map, hlenD, hlenR]
  simp only [List.all_cons, List.all_nil, beq_self_eq_true, Bool.and_self, Bool.and_true, if_true]
  refine ⟨_, rfl, rfl, ?_, ?_, ?_, ?_⟩
  · rw [getCol_of_cols_mk _ _ _ 0 (by rfl)]
    rw [Except.ok.injEq, List.map_map]
    simp only [Function.comp_def, specCell, List.map_cons, List.map_nil,
      List.getD_cons_zero, List.getD_cons_succ]
    rw [range_map_getD ((kvsC.map Prod.fst).map Cell.str) (by simp), List.map_map]
    rfl
  · rw [getCol_of_cols_mk _ _ _ 1 (by rfl)]
    rw [Except.ok.injEq, List.map_map]
    simp only [Function.comp_def, specCell, List.map_cons, List.map_nil,
      List.getD_cons_zero, List.getD_cons_succ]
    rw [range_map_getD ((kvsC.map Prod.snd).map Cell.ofJson) (by simp), List.map_map]
    rfl
  · rw [getCol_of_cols_mk _ _ _ 2 (by rfl)]
    rw [Except.ok.injEq, List.map_map]
    simp only [Function.comp_def, specCell, List.map_cons, List.map_nil,
      List.getD_cons_zero, List.getD_cons_succ]
    rw [range_map_getD ((kvsD.map Prod.snd).map Cell.ofJson) (by simp [hlenD]), List.map_map]
    rfl
  · rw [getCol_of_cols_mk _ _ _ 3 (by rfl)]
    rw [Except.ok.injEq, List.map_map]
    simp only [Function.comp_def, specCell, List.map_cons, List.map_nil,
      List.getD_cons_zero, List.getD_cons_succ]
    rw [range_map_getD ((kvsR.map Prod.snd).map Cell.ofJson) (by simp [hlenR]), List.map_map]
    rfl

/-- The upstream body of the C3 scenario: one date with one case and zero
deaths. -/
def scenarioBody : Json :=
  Json.obj
    [("cases", Json.obj [("1/22/20", Json.num 1)]),
     ("deaths", Json.obj [("1/22/20", Json.num 0)])]

/-- An environment whose global history endpoint returns the C3 scenario
body. -/
def scenarioEnv : FetchEnv := fun url =>
  if url == histAllUrl then some (HttpResponse.mk 200 scenarioBody) else none

/-- The table of the C3 scenario: one row, confirmed 1, deaths 0,
year 2020, retained by the filter. -/
def scenarioDf : DataFrame :=
  DataFrame.mk ["date", "confirmed", "deaths", "recovered", "year"]
    [[Cell.date (Date.mk 2020 1 22), Cell.int 1, Cell.int 0, Cell.na, Cell.int 2020]]

/-- C3: the global history builder pairs the cases, deaths and (when
present) recovered dicts positionally by key insertion order into one row
per date, with no join on the date key, and the concrete scenario yields
one row with confirmed 1, deaths 0, year 2020, retained by the filter. -/
theorem c3_theorem :
    (∀ kvsC kvsD : List (String × Json), kvsD.length = kvsC.length →
        buildHistFrame (Json.obj [("cases", Json.obj kvsC), ("deaths", Json.obj kvsD)]) =
          Except.ok (DataFrame.mk ["date", "confirmed", "deaths", "recovered"]
            ((kvsC.zip kvsD).map (fun p =>
              [Cell.str p.1.1, Cell.ofJson p.1.2, Cell.ofJson p.2.2, Cell.na]))))
  ∧ (∀ kvsC kvsD kvsR : List (String × Json),
        kvsD.length = kvsC.length → kvsR.length = kvsC.length →
        ∃ df,
          buildHistFrame (Json.obj
              [("cases", Json.obj kvsC), ("deaths", Json.obj kvsD),
               ("recovered", Json.obj kvsR)]) = Except.ok df
          ∧ df.cols = ["date", "confirmed", "deaths", "recovered"]
          ∧ df.getCol "date" = Except.ok (kvsC.map (fun p => Cell.str p.1))
          ∧ df.getCol "confirmed" = Except.ok (kvsC.map (fun p => Cell.ofJson p.2))
          ∧ df.getCol "deaths" = Except.ok (kvsD.map (fun p => Cell.ofJson p.2))
          ∧ df.getCol "recovered" = Except.ok (kvsR.map (fun p => Cell.ofJson p.2)))
  ∧ (load_covid_data scenarioEnv none).run [] = Except.ok (scenarioDf, [histAllUrl]) :=
  ⟨buildHistFrame_positional, buildHistFrame_positional_rec, rfl⟩

/-- Witness for C3 at concrete dicts, including a deaths dict whose key
order is positionally paired. -/
theorem c3_witness :
    buildHistFrame (Json.obj
        [("cases", Json.obj [("1/22/20", Json.num 1)]),
         ("deaths", Json.obj [("1/22/20", Json.num 0)])]) =
      Except.ok (DataFrame.mk ["date", "confirmed", "deaths", "recovered"]
        [[Cell.str "1/22/20", Cell.int 1, Cell.int 0, Cell.na]])
  ∧ ∃ df,
      buildHistFrame (Json.obj
          [("cases", Json.obj [("1/22/20", Json.num 1)]),
           ("deaths", Json.obj [("1/22/20", Json.num 0)]),
           ("recovered", Json.obj [("1/22/20", Json.num 2)])]) = Except.ok df
      ∧ df.cols = ["date", "confirmed", "deaths", "recovered"]
      ∧ df.getCol "date" = Except.ok [Cell.str "1/22/20"]
      ∧ df.getCol "confirmed" = Except.ok [Cell.int 1]
      ∧ df.getCol "deaths" = Except.ok [Cell.int 0]
      ∧ df.getCol "recovered" = Except.ok [Cell.int 2] :=
  ⟨c3_theorem.1 [("1/22/20", Json.num 1)] [("1/22/20", Json.num 0)] rfl,
   c3_theorem.2.1 [("1/22/20", Json.num 1)] [("1/22/20", Json.num 0)]
     [("1/22/20", Json.num 2)] rfl rfl⟩


/-! ### Frame and pipeline row structure -/


theorem exceptMapM_forall2 {α β : Type} {f : α → Except PyError β} :
    ∀ {xs : List α} {ys : List β}, xs.mapM f = Except.ok ys →
      List.Forall₂ (fun x y => f x = Except.ok y) xs ys := by
  intro xs
  induction xs with
  | nil =>
    intro ys h
    rw [List.mapM_nil] at h
    have hy : ys = [] := by simpa [Pure.pure, Except.pure] using h.symm
    rw [hy]
    exact List.Forall₂.nil
  | cons a t ih =>
    intro ys h
    rw [List.mapM_cons] at h
    obtain ⟨b, hb, h2⟩ := exceptBind_ok h
    obtain ⟨bs, hbs, h3⟩ := exceptBind_ok h2
    have hy : ys = b :: bs := by simpa [Pure.pure, Except.pure] using h3.symm
    rw [hy]
    exact List.Forall₂.cons hb (ih hbs)

theorem setCol_mk_some (cols : List String) (rows : List (List Cell)) (c : String) (i : Nat)
    (xs : List Cell) (h : List.findIdx? (fun x => x == c) cols = some i) :
    (DataFrame.mk cols rows).setCol c xs =
      DataFrame.mk cols ((rows.zip xs).map (fun p => p.1.set i p.2)) := by
  unfold DataFrame.setCol DataFrame.colIndex
  dsimp only
  rw [h]

theorem setCol_mk_none (cols : List String) (rows : List (List Cell)) (c : String)
    (xs : List Cell) (h : List.findIdx? (fun x => x == c) cols = none) :
    (DataFrame.mk cols rows).setCol c xs =
      DataFrame.mk (cols ++ [c]) ((rows.zip xs).map (fun p => p.1 ++ [p.2])) := by
  unfold DataFrame.setCol DataFrame.colIndex
  dsimp only
  rw [h]

theorem pdDataFrameOfDict_inv {specs : List (String × ColSpec)} {df : DataFrame}
    (h : pdDataFrameOfDict specs = Except.ok df) :
    ∃ n rest, specLens specs = n :: rest ∧ rest.all (fun m => m == n) = true ∧
      df = DataFrame.mk (specs.map Prod.fst)
        ((List.range n).map (fun i => specs.map (fun p => specCell p.2 i))) := by
  unfold pdDataFrameOfDict at h
  cases hsl : specLens specs with
  | nil => rw [hsl] at h; exact absurd h (by simp)
  | cons n rest =>
    rw [hsl] at h
    dsimp only at h
    by_cases hall : rest.all (fun m => m == n) = true
    · rw [if_pos hall] at h
      rw [Except.ok.injEq] at h
      exact ⟨n, rest, rfl, hall, h.symm⟩
    · rw [if_neg hall] at h
      exact absurd h (by simp)

theorem buildHistFrame_rows {src : Json} {frame : DataFrame}
    (h : buildHistFrame src = Except.ok frame) :
    frame.cols = ["date", "confirmed", "deaths", "recovered"] ∧
    ∀ row ∈ frame.rows, ∃ s c d r, row = [Cell.str s, c, d, r] ∧
      (src.containsKey "recovered" = false → r = Cell.na) := by
  unfold buildHistFrame at h
  obtain ⟨cases0, hcases, h⟩ := exceptBind_ok h
  obtain ⟨dates, hdates, h⟩ := exceptBind_ok h
  obtain ⟨confs, hconfs, h⟩ := exceptBind_ok h
  obtain ⟨deathsJ, hdj, h⟩ := exceptBind_ok h
  obtain ⟨deathsV, hdv, h⟩ := exceptBind_ok h
  obtain ⟨recSpec, hrec, h⟩ := exceptBind_ok h
  cases recSpec with
  | values recCells =>
    obtain ⟨n, rest, hsl, hall, hdf⟩ := pdDataFrameOfDict_inv h
    have hsl2 : specLens
        [("date", ColSpec.values (dates.map Cell.str)),
         ("confirmed", ColSpec.values (confs.map Cell.ofJson)),
         ("deaths", ColSpec.values (deathsV.map Cell.ofJson)),
         ("recovered", ColSpec.values recCells)] =
        [(dates.map Cell.str).length, (confs.map Cell.ofJson).length,
         (deathsV.map Cell.ofJson).length, recCells.length] := rfl
    rw [hsl2] at hsl
    have hn : (dates.map Cell.str).length = n := by injection hsl
    subst hdf
    refine ⟨rfl, ?_⟩
    intro row hrow
    dsimp only at hrow
    rw [List.mem_map] at hrow
    obtain ⟨i, hi, hrowEq⟩ := hrow
    rw [List.mem_range] at hi
    have hiD : i < (dates.map Cell.str).length := by omega
    refine ⟨dates.getD i "", (confs.map Cell.ofJson).getD i Cell.na,
      (deathsV.map Cell.ofJson).getD i Cell.na, recCells.getD i Cell.na, ?_, ?_⟩
    · rw [← hrowEq]
      simp only [List.map_cons, List.map_nil, specCell]
      have hstr : (dates.map Cell.str).getD i Cell.na = Cell.str (dates.getD i "") := by
        rw [List.getD_eq_getElem _ _ hiD, List.getElem_map,
          List.getD_eq_getElem _ _ (by simpa using hiD)]
      rw [hstr]
    · intro hck2
      exfalso
      unfold recoveredSpec at hrec
      rw [hck2] at hrec
      simp [Pure.pure, Except.pure] at hrec
  | scalarNa =>
    obtain ⟨n, rest, hsl, hall, hdf⟩ := pdDataFrameOfDict_inv h
    have hsl2 : specLens
        [("date", ColSpec.values (dates.map Cell.str)),
         ("confirmed", ColSpec.values (confs.map Cell.ofJson)),
         ("deaths", ColSpec.values (deathsV.map Cell.ofJson)),
         ("recovered", ColSpec.scalarNa)] =
        [(dates.map Cell.str).length, (confs.map Cell.ofJson).length,
         (deathsV.map Cell.ofJson).length] := rfl
    rw [hsl2] at hsl
    have hn : (dates.map Cell.str).length = n := by injection hsl
    subst hdf
    refine ⟨rfl, ?_⟩
    intro row hrow
    dsimp only at hrow
    rw [List.mem_map] at hrow
    obtain ⟨i, hi, hrowEq⟩ := hrow
    rw [List.mem_range] at hi
    have hiD : i < (dates.map Cell.str).length := by omega
    refine ⟨dates.getD i "", (confs.map Cell.ofJson).getD i Cell.na,
      (deathsV.map Cell.ofJson).getD i Cell.na, Cell.na, ?_, fun _ => rfl⟩
    rw [← hrowEq]
    simp only [List.map_cons, List.map_nil, specCell]
    have hstr : (dates.map Cell.str).getD i Cell.na = Cell.str (dates.getD i "") := by
      rw [List.getD_eq_getElem _ _ hiD, List.getElem_map,
        List.getD_eq_getElem _ _ (by simpa using hiD)]
    rw [hstr]



theorem histPipeline_rows {frame df : DataFrame}
    (hcols : frame.cols = ["date", "confirmed", "deaths", "recovered"])
    (hshape : ∀ row ∈ frame.rows, ∃ s c d r, row = [Cell.str s, c, d, r])
    (h : histPipeline frame = Except.ok df) :
    df.cols = ["date", "confirmed", "deaths", "recovered", "year"] ∧
    ∀ row ∈ df.rows, ∃ s dt c d r,
      parseDate s = some dt ∧ [Cell.str s, c, d, r] ∈ frame.rows ∧
      row = [Cell.date dt, c, d, r, Cell.int dt.year] ∧
      2020 ≤ dt.year ∧ dt.year ≤ 2023 := by
  obtain ⟨cols0, rows0⟩ := frame
  dsimp only at hcols hshape
  subst hcols
  unfold histPipeline at h
  obtain ⟨df1, h1, h⟩ := exceptBind_ok h
  obtain ⟨df2, h2, h3⟩ := exceptBind_ok h
  -- invert toDatetime
  unfold DataFrame.toDatetime at h1
  rw [getCol_of_cols_mk ["date", "confirmed", "deaths", "recovered"] _ "date" 0 rfl] at h1
  dsimp only at h1
  cases hm1 : (rows0.map (fun r => r.getD 0 Cell.na)).mapM cellToDatetime with
  | error e => rw [hm1] at h1; exact absurd h1 (by simp)
  | ok ys =>
    rw [hm1] at h1
    dsimp only at h1
    rw [setCol_mk_some ["date", "confirmed", "deaths", "recovered"] _ "date" 0 _ rfl] at h1
    rw [Except.ok.injEq] at h1
    have hf1 : List.Forall₂
        (fun r y => cellToDatetime (r.getD 0 Cell.na) = Except.ok y) rows0 ys := by
      have := exceptMapM_forall2 hm1
      rwa [List.forall₂_map_left_iff] at this
    -- invert withYear
    rw [← h1] at h2
    unfold DataFrame.withYear at h2
    rw [getCol_of_cols_mk ["date", "confirmed", "deaths", "recovered"] _ "date" 0 rfl] at h2
    dsimp only at h2
    cases hm2 : (((rows0.zip ys).map (fun p => p.1.set 0 p.2)).map
        (fun r => r.getD 0 Cell.na)).mapM cellYear with
    | error e => rw [hm2] at h2; exact absurd h2 (by simp)
    | ok ys2 =>
      rw [hm2] at h2
      dsimp only at h2
      rw [setCol_mk_none ["date", "confirmed", "deaths", "recovered"] _ "year" _ rfl] at h2
      rw [Except.ok.injEq] at h2
      have hf2 : List.Forall₂
          (fun r y => cellYear (r.getD 0 Cell.na) = Except.ok y)
          ((rows0.zip ys).map (fun p => p.1.set 0 p.2)) ys2 := by
        have := exceptMapM_forall2 hm2
        rwa [List.forall₂_map_left_iff] at this
      -- invert the year range filter
      rw [← h2] at h3
      obtain ⟨i, hidx, hcols3, hrows3⟩ := filterYearRange_inv h3
      have hi4 : i = 4 := by
        have : (DataFrame.mk (["date", "confirmed", "deaths", "recovered"] ++ ["year"])
            (((rows0.zip ys).map (fun p => p.1.set 0 p.2)).zip ys2 |>.map
              (fun p => p.1 ++ [p.2]))).colIndex "year" = some 4 := rfl
        rw [this] at hidx
        injection hidx with hidx
        omega
      subst hi4
      constructor
      · rw [hcols3]
        rfl
      · intro row hrow
        rw [hrows3] at hrow
        rw [List.mem_filter] at hrow
        obtain ⟨hmem2, hbetween⟩ := hrow
        dsimp only at hmem2
        rw [List.mem_map] at hmem2
        obtain ⟨p, hpmem, hpeq⟩ := hmem2
        have hp1mem := (List.of_mem_zip hpmem).1
        have hrel2 := List.forall₂_zip hf2 hpmem
        rw [List.mem_map] at hp1mem
        obtain ⟨q, hqmem, hqeq⟩ := hp1mem
        have hq1mem := (List.of_mem_zip hqmem).1
        have hrel1 := List.forall₂_zip hf1 hqmem
        obtain ⟨s, c, d, r, hq1shape⟩ := hshape q.1 hq1mem
        -- from the toDatetime relation, q.2 is the parsed date
        rw [hq1shape] at hrel1
        have hq1get : ([Cell.str s, c, d, r].getD 0 Cell.na) = Cell.str s := rfl
        rw [hq1get] at hrel1
        unfold cellToDatetime at hrel1
        dsimp only at hrel1
        cases hparse : parseDate s with
        | none => rw [hparse] at hrel1; exact absurd hrel1 (by simp)
        | some dt =>
          rw [hparse] at hrel1
          dsimp only at hrel1
          rw [Except.ok.injEq] at hrel1
          -- p.1 = [date dt, c, d, r]
          have hp1 : p.1 = [Cell.date dt, c, d, r] := by
            rw [← hqeq, hq1shape, ← hrel1]
            rfl
          -- from the year relation, p.2 is the year int
          rw [hp1] at hrel2
          have hp1get : ([Cell.date dt, c, d, r].getD 0 Cell.na) = Cell.date dt := rfl
          rw [hp1get] at hrel2
          unfold cellYear at hrel2
          dsimp only at hrel2
          rw [Except.ok.injEq] at hrel2
          have hrowval : row = [Cell.date dt, c, d, r, Cell.int dt.year] := by
            rw [← hpeq, hp1, ← hrel2]
            rfl
          refine ⟨s, dt, c, d, r, hparse, ?_, hrowval, ?_, ?_⟩
          · rw [← hq1shape]; exact hq1mem
          · -- bounds from the filter flag
            rw [hrowval] at hbetween
            have : ([Cell.date dt, c, d, r, Cell.int dt.year].getD 4 Cell.na)
                = Cell.int dt.year := rfl
            rw [this] at hbetween
            obtain ⟨m, hm, hlo, hhi⟩ := cellIntBetween_true_iff.mp hbetween
            injection hm with hm
            omega
          · rw [hrowval] at hbetween
            have : ([Cell.date dt, c, d, r, Cell.int dt.year].getD 4 Cell.na)
                = Cell.int dt.year := rfl
            rw [this] at hbetween
            obtain ⟨m, hm, hlo, hhi⟩ := cellIntBetween_true_iff.mp hbetween
            injection hm with hm
            omega


/-! ### Claim C4: missing recovered series -/


theorem filterYearEq_inv {df filtered : DataFrame} {y : Option Int}
    (h : df.filterYearEq y = Except.ok filtered) :
    filtered.cols = df.cols ∧ ∀ row ∈ filtered.rows, row ∈ df.rows := by
  unfold DataFrame.filterYearEq at h
  cases hg : df.getCol "year" with
  | error e => rw [hg] at h; exact absurd h (by simp)
  | ok ys =>
    rw [hg] at h
    dsimp only at h
    cases y with
    | none =>
      rw [Except.ok.injEq] at h
      rw [← h]
      exact ⟨rfl, by intro row hrow; exact absurd hrow (by simp)⟩
    | some n =>
      rw [Except.ok.injEq] at h
      rw [← h]
      refine ⟨rfl, ?_⟩
      intro row hrow
      dsimp only at hrow
      rw [List.mem_map] at hrow
      obtain ⟨p, hpmem, hpeq⟩ := hrow
      rw [List.mem_filter] at hpmem
      have := (List.of_mem_zip hpmem.1).1
      rw [← hpeq]
      exact this

theorem yearSelectAndMetrics_inv {df : DataFrame} {yearChoice : Int}
    {acts : List RenderAction}
    (h : yearSelectAndMetrics df yearChoice = Except.ok acts) :
    ∃ yearsCol filtered,
      df.getCol "year" = Except.ok yearsCol ∧
      df.filterYearEq (selectFromOptions (availableYearsOf yearsCol) yearChoice)
        = Except.ok filtered ∧
      buildMetricsAndTrend filtered = Except.ok acts := by
  unfold yearSelectAndMetrics at h
  obtain ⟨yearsCol, hy, h⟩ := exceptBind_ok h
  dsimp only at h
  obtain ⟨filtered, hf, h⟩ := exceptBind_ok h
  exact ⟨yearsCol, filtered, hy, hf, h⟩

theorem buildMetricsAndTrend_na_rec {filtered : DataFrame} {acts : List RenderAction}
    {recCol : List Cell}
    (hrc : filtered.getCol "recovered" = Except.ok recCol)
    (hna : ∀ x ∈ recCol, x = Cell.na)
    (h : buildMetricsAndTrend filtered = Except.ok acts) :
    ∃ tc td,
      acts = [RenderAction.metric "Total Confirmed" (formatThousands tc),
        RenderAction.metric "Total Deaths" (formatThousands td),
        RenderAction.metric "Total Recovered" "N/A",
        RenderAction.lineChart filtered "date" ["confirmed", "deaths"]] := by
  unfold buildMetricsAndTrend at h
  obtain ⟨confCol, hcc, h⟩ := exceptBind_ok h
  obtain ⟨tc, htc, h⟩ := exceptBind_ok h
  obtain ⟨deathsCol, hdc, h⟩ := exceptBind_ok h
  obtain ⟨td, htd, h⟩ := exceptBind_ok h
  obtain ⟨recCol2, hrc2, h⟩ := exceptBind_ok h
  obtain ⟨trec, htrec, h⟩ := exceptBind_ok h
  have hrcEq : recCol2 = recCol := by
    rw [hrc] at hrc2
    injection hrc2 with h2
    exact h2.symm
  subst hrcEq
  have hany : recCol2.any cellNotNa = false := by
    rw [List.any_eq_false]
    intro x hx
    rw [hna x hx]
    simp [cellNotNa]
  unfold totalRecovered at htrec
  rw [hany] at htrec
  have htrecv : trec = none := by
    simpa [Pure.pure, Except.pure] using htrec.symm
  subst htrecv
  have hacts : acts = [RenderAction.metric "Total Confirmed" (formatThousands tc),
      RenderAction.metric "Total Deaths" (formatThousands td),
      RenderAction.metric "Total Recovered" "N/A",
      RenderAction.lineChart filtered "date" ["confirmed", "deaths"]] := by
    simpa [Pure.pure, Except.pure] using h.symm
  exact ⟨tc, td, hacts⟩



/-- C4 amended: when the recovered key is absent from a history response,
the built table has a recovered column that is entirely null (rather than
no recovered column), no error is raised, the recovered metric card shows
the placeholder, and the trend chart carries only the confirmed and
deaths lines. -/
theorem c4_theorem :
    ∀ src df acts yearChoice, src.containsKey "recovered" = false →
      covidBodyGlobal src = Except.ok df →
      yearSelectAndMetrics df yearChoice = Except.ok acts →
      df.cols = ["date", "confirmed", "deaths", "recovered", "year"]
      ∧ (∀ recCol, df.getCol "recovered" = Except.ok recCol → ∀ x ∈ recCol, x = Cell.na)
      ∧ RenderAction.metric "Total Recovered" "N/A" ∈ acts
      ∧ (∀ fd x ys, RenderAction.lineChart fd x ys ∈ acts → ys = ["confirmed", "deaths"]) := by
  intro src df acts yearChoice hck hbody hmetrics
  unfold covidBodyGlobal at hbody
  obtain ⟨frame, hframe, hpipe⟩ := exceptBind_ok hbody
  obtain ⟨hfcols, hfshape⟩ := buildHistFrame_rows hframe
  have hfshape2 : ∀ row ∈ frame.rows, ∃ s c d r, row = [Cell.str s, c, d, r] := by
    intro row hrow
    obtain ⟨s, c, d, r, he, _⟩ := hfshape row hrow
    exact ⟨s, c, d, r, he⟩
  obtain ⟨hdfcols, hdfrows⟩ := histPipeline_rows hfcols hfshape2 hpipe
  have hna3 : ∀ row ∈ df.rows, row.getD 3 Cell.na = Cell.na := by
    intro row hrow
    obtain ⟨s, dt, c, d, r, hparse, hmem, hroweq, _, _⟩ := hdfrows row hrow
    obtain ⟨s2, c2, d2, r2, heq2, hrna⟩ := hfshape _ hmem
    simp only [List.cons.injEq, and_true] at heq2
    have hr : r = Cell.na := by
      rw [heq2.2.2.2]
      exact hrna hck
    rw [hroweq]
    have : ([Cell.date dt, c, d, r, Cell.int dt.year].getD 3 Cell.na) = r := rfl
    rw [this, hr]
  refine ⟨hdfcols, ?_, ?_, ?_⟩
  · intro recCol hrc x hx
    obtain ⟨i, hidx, hcolEq⟩ := getCol_inv hrc
    have hidx3 : df.colIndex "recovered" = some 3 := by
      unfold DataFrame.colIndex
      rw [hdfcols]
      rfl
    rw [hidx3] at hidx
    injection hidx with hidx
    subst hidx
    rw [hcolEq] at hx
    rw [List.mem_map] at hx
    obtain ⟨row, hrowmem, hxeq⟩ := hx
    rw [← hxeq]
    exact hna3 row hrowmem
  · obtain ⟨yearsCol, filtered, hy, hfil, hbm⟩ := yearSelectAndMetrics_inv hmetrics
    obtain ⟨hfc, hfmem⟩ := filterYearEq_inv hfil
    have hidxf : filtered.colIndex "recovered" = some 3 := by
      unfold DataFrame.colIndex
      rw [hfc, hdfcols]
      rfl
    have hgc : filtered.getCol "recovered"
        = Except.ok (filtered.rows.map (fun r => r.getD 3 Cell.na)) := by
      unfold DataFrame.getCol
      rw [hidxf]
    have hallna : ∀ x ∈ filtered.rows.map (fun r => r.getD 3 Cell.na), x = Cell.na := by
      intro x hx
      rw [List.mem_map] at hx
      obtain ⟨row, hrowmem, hxeq⟩ := hx
      rw [← hxeq]
      exact hna3 row (hfmem row hrowmem)
    obtain ⟨tc, td, hacts⟩ := buildMetricsAndTrend_na_rec hgc hallna hbm
    rw [hacts]
    simp
  · obtain ⟨yearsCol, filtered, hy, hfil, hbm⟩ := yearSelectAndMetrics_inv hmetrics
    obtain ⟨hfc, hfmem⟩ := filterYearEq_inv hfil
    have hidxf : filtered.colIndex "recovered" = some 3 := by
      unfold DataFrame.colIndex
      rw [hfc, hdfcols]
      rfl
    have hgc : filtered.getCol "recovered"
        = Except.ok (filtered.rows.map (fun r => r.getD 3 Cell.na)) := by
      unfold DataFrame.getCol
      rw [hidxf]
    have hallna : ∀ x ∈ filtered.rows.map (fun r => r.getD 3 Cell.na), x = Cell.na := by
      intro x hx
      rw [List.mem_map] at hx
      obtain ⟨row, hrowmem, hxeq⟩ := hx
      rw [← hxeq]
      exact hna3 row (hfmem row hrowmem)
    obtain ⟨tc, td, hacts⟩ := buildMetricsAndTrend_na_rec hgc hallna hbm
    intro fd x ys hmem
    rw [hacts] at hmem
    simp only [List.mem_cons, List.not_mem_nil, or_false] at hmem
    rcases hmem with h1 | h2 | h3 | h4
    · cases h1
    · cases h2
    · cases h3
    · injection h4

/-- The acts of the metric section on the concrete recovered-free table. -/
def c4Acts : List RenderAction :=
  [RenderAction.metric "Total Confirmed" "3",
   RenderAction.metric "Total Deaths" "1",
   RenderAction.metric "Total Recovered" "N/A",
   RenderAction.lineChart histDf1 "date" ["confirmed", "deaths"]]

/-- C4 counterexample: with the recovered key absent from the upstream
body, the built table still has a recovered column (null-filled), because
pandas broadcasts the scalar None; the claim that the table has no
recovered column is false. -/
theorem c4_counterexample :
    histBody1.containsKey "recovered" = false
  ∧ (load_covid_data env1 none).run [] = Except.ok (histDf1, [histAllUrl])
  ∧ histDf1.cols = ["date", "confirmed", "deaths", "recovered", "year"] :=
  ⟨rfl, rfl, rfl⟩

/-- Witness for C4 at the concrete recovered-free run. -/
theorem c4_witness :
    histDf1.cols = ["date", "confirmed", "deaths", "recovered", "year"]
    ∧ (∀ recCol, histDf1.getCol "recovered" = Except.ok recCol → ∀ x ∈ recCol, x = Cell.na)
    ∧ RenderAction.metric "Total Recovered" "N/A" ∈ c4Acts
    ∧ (∀ fd x ys, RenderAction.lineChart fd x ys ∈ c4Acts → ys = ["confirmed", "deaths"]) :=
  c4_theorem histBody1 histDf1 c4Acts 2020 rfl rfl rfl


/-! ### Claim C5: empty vaccination data -/


/-- C5: a vaccination response with no timeline entries yields an empty
table with exactly the columns date and total rather than an error, and
the module renders a user-visible warning instead of a chart for an empty
vaccination table. -/
theorem c5_theorem :
    (∀ env c log (r : HttpResponse) tl,
        env (vaccineUrl c) = some r →
        ¬(400 ≤ r.status ∧ r.status < 600) →
        r.body.dictGet "timeline" (Json.arr []) = Except.ok tl →
        jsonTruthy tl = false →
        (load_vaccine_data env c).run log =
          Except.ok (DataFrame.mk ["date", "total"] [], log ++ [vaccineUrl c]))
  ∧ (∀ c df, df.rows = [] →
        vaccineSection c df =
          Except.ok [RenderAction.warning ("No vaccination data available for " ++ c ++ ".")]) := by
  constructor
  · intro env c log r tl henv hst hd ht
    rw [load_vaccine_eq_fetchChecked, fetchChecked_run, henv]
    dsimp only
    rw [if_neg hst]
    have hb : vaccineBody r.body = Except.ok (DataFrame.mk ["date", "total"] []) := by
      unfold vaccineBody
      rw [hd]
      simp [Bind.bind, Except.bind, ht, Pure.pure, Except.pure]
    rw [hb]
  · intro c df h
    unfold vaccineSection
    rw [h]
    rfl

/-- An environment whose vaccination endpoint answers with an empty
timeline. -/
def c5Env : FetchEnv := fun url =>
  if url == vaccineUrl "USA" then
    some (HttpResponse.mk 200 (Json.obj [("timeline", Json.arr [])])) else none

/-- Witness for C5 at a concrete empty-timeline response. -/
theorem c5_witness :
    (load_vaccine_data c5Env "USA").run [] =
      Except.ok (DataFrame.mk ["date", "total"] [], [vaccineUrl "USA"])
  ∧ vaccineSection "USA" (DataFrame.mk ["date", "total"] []) =
      Except.ok [RenderAction.warning "No vaccination data available for USA."] :=
  ⟨c5_theorem.1 c5Env "USA" [] (HttpResponse.mk 200 (Json.obj [("timeline", Json.arr [])]))
      (Json.arr []) rfl (by decide) rfl rfl,
   c5_theorem.2 "USA" (DataFrame.mk ["date", "total"] []) rfl⟩


/-! ### Claim C6: metric cards show column maxima -/


theorem pyInt_inv {c : Cell} {n : Int} (h : pyInt c = Except.ok n) : c = Cell.int n := by
  cases c <;> simp [pyInt] at h <;> rw [h]

theorem cell_int_or_not (x : Cell) : (∃ v, x = Cell.int v) ∨ (∀ v, x ≠ Cell.int v) := by
  cases x <;> simp

theorem maxStep_int_cases (acc : Cell) (n : Int) :
    (∃ a, acc = Cell.int a ∧ maxStep acc (Cell.int n) = Cell.int (max a n))
    ∨ ((∀ b, acc ≠ Cell.int b) ∧ maxStep acc (Cell.int n) = Cell.int n) := by
  cases acc with
  | int a => exact Or.inl ⟨a, rfl, rfl⟩
  | na => exact Or.inr ⟨by simp, rfl⟩
  | str s => exact Or.inr ⟨by simp, rfl⟩
  | date d => exact Or.inr ⟨by simp, rfl⟩
  | bool b => exact Or.inr ⟨by simp, rfl⟩
  | json j => exact Or.inr ⟨by simp, rfl⟩

theorem maxStep_nonint (acc x : Cell) (hx : ∀ v, x ≠ Cell.int v) : maxStep acc x = acc := by
  cases x with
  | int v => exact absurd rfl (hx v)
  | na => rfl
  | str s => rfl
  | date d => rfl
  | bool b => rfl
  | json j => rfl

theorem foldl_maxStep_int {xs : List Cell} : ∀ {acc : Cell} {m : Int},
    xs.foldl maxStep acc = Cell.int m →
    (acc = Cell.int m ∨ Cell.int m ∈ xs) ∧ (∀ n, Cell.int n ∈ xs → n ≤ m) ∧
      (∀ a, acc = Cell.int a → a ≤ m) := by
  induction xs with
  | nil =>
    intro acc m h
    rw [List.foldl_nil] at h
    refine ⟨Or.inl h, by simp, ?_⟩
    intro a ha
    rw [ha] at h
    injection h with h
    omega
  | cons x t ih =>
    intro acc m h
    rw [List.foldl_cons] at h
    rcases cell_int_or_not x with ⟨v, rfl⟩ | hnot
    · rcases maxStep_int_cases acc v with ⟨a, hacc, hms⟩ | ⟨hnacc, hms⟩
      · rw [hms] at h
        obtain ⟨H1, H2, H3⟩ := ih h
        have hmax : max a v ≤ m := H3 (max a v) rfl
        refine ⟨?_, ?_, ?_⟩
        · rcases H1 with H1 | H1
          · injection H1 with H1
            rcases max_choice a v with hc | hc
            · refine Or.inl ?_
              rw [hacc]
              exact congrArg Cell.int (by omega)
            · refine Or.inr ?_
              have hmv : m = v := by omega
              rw [hmv]
              exact List.mem_cons_self _ _
          · exact Or.inr (List.mem_cons_of_mem _ H1)
        · intro n hn
          rcases List.mem_cons.mp hn with hn | hn
          · injection hn with hn
            subst hn
            omega
          · exact H2 n hn
        · intro b hb
          rw [hacc] at hb
          injection hb with hb
          omega
      · rw [hms] at h
        obtain ⟨H1, H2, H3⟩ := ih h
        have hvm : v ≤ m := H3 v rfl
        refine ⟨?_, ?_, ?_⟩
        · rcases H1 with H1 | H1
          · injection H1 with H1
            refine Or.inr ?_
            rw [← H1]
            exact List.mem_cons_self _ _
          · exact Or.inr (List.mem_cons_of_mem _ H1)
        · intro n hn
          rcases List.mem_cons.mp hn with hn | hn
          · injection hn with hn
            subst hn
            omega
          · exact H2 n hn
        · intro b hb
          exact absurd hb (hnacc b)
    · rw [maxStep_nonint acc x hnot] at h
      obtain ⟨H1, H2, H3⟩ := ih h
      refine ⟨?_, ?_, H3⟩
      · rcases H1 with H1 | H1
        · exact Or.inl H1
        · exact Or.inr (List.mem_cons_of_mem _ H1)
      · intro n hn
        rcases List.mem_cons.mp hn with hn | hn
        · exact absurd hn.symm (hnot n)
        · exact H2 n hn

theorem colMaxCell_spec {xs : List Cell} {m : Int} (h : colMaxCell xs = Cell.int m) :
    Cell.int m ∈ xs ∧ ∀ n, Cell.int n ∈ xs → n ≤ m := by
  obtain ⟨H1, H2, _⟩ := foldl_maxStep_int h
  rcases H1 with H1 | H1
  · exact absurd H1 (by simp)
  · exact ⟨H1, H2⟩



/-- The string shown on the recovered metric card. -/
def recMetricValue (trec : Option Int) : String :=
  match trec with
  | some v => formatThousands v
  | none => "N/A"

theorem foldl_maxStep_is_int {xs : List Cell} : ∀ {acc : Cell},
    ((∃ n, acc = Cell.int n) ∨ (∃ n, Cell.int n ∈ xs)) →
    ∃ m, xs.foldl maxStep acc = Cell.int m := by
  induction xs with
  | nil =>
    intro acc hex
    rcases hex with ⟨n, hn⟩ | ⟨n, hn⟩
    · exact ⟨n, by rw [List.foldl_nil, hn]⟩
    · exact absurd hn (by simp)
  | cons x t ih =>
    intro acc hex
    rw [List.foldl_cons]
    rcases cell_int_or_not x with ⟨v, rfl⟩ | hnot
    · rcases maxStep_int_cases acc v with ⟨a, hacc, hms⟩ | ⟨hnacc, hms⟩
      · rw [hms]
        exact ih (Or.inl ⟨max a v, rfl⟩)
      · rw [hms]
        exact ih (Or.inl ⟨v, rfl⟩)
    · rw [maxStep_nonint acc x hnot]
      rcases hex with ⟨n, hn⟩ | ⟨n, hn⟩
      · exact ih (Or.inl ⟨n, hn⟩)
      · rcases List.mem_cons.mp hn with hn | hn
        · exact absurd hn.symm (hnot n)
        · exact ih (Or.inr ⟨n, hn⟩)

theorem colMaxCell_is_int {xs : List Cell} (hex : ∃ n, Cell.int n ∈ xs) :
    ∃ m, colMaxCell xs = Cell.int m :=
  foldl_maxStep_is_int (Or.inr hex)

/-- C6: each metric card shows the maximum of its column over the
year-filtered table, formatted with thousands separators, and the
recovered card shows the placeholder exactly when the recovered series
has no non-null entry. -/
theorem c6_theorem :
    ∀ filtered acts, buildMetricsAndTrend filtered = Except.ok acts →
      (∃ confCol m, filtered.getCol "confirmed" = Except.ok confCol ∧
        Cell.int m ∈ confCol ∧ (∀ n, Cell.int n ∈ confCol → n ≤ m) ∧
        RenderAction.metric "Total Confirmed" (formatThousands m) ∈ acts)
      ∧ (∃ deathsCol m, filtered.getCol "deaths" = Except.ok deathsCol ∧
        Cell.int m ∈ deathsCol ∧ (∀ n, Cell.int n ∈ deathsCol → n ≤ m) ∧
        RenderAction.metric "Total Deaths" (formatThousands m) ∈ acts)
      ∧ (∃ recCol, filtered.getCol "recovered" = Except.ok recCol ∧
        ((∃ m, Cell.int m ∈ recCol ∧ (∀ n, Cell.int n ∈ recCol → n ≤ m) ∧
            RenderAction.metric "Total Recovered" (formatThousands m) ∈ acts)
          ∨ (recCol.any cellNotNa = false ∧
             RenderAction.metric "Total Recovered" "N/A" ∈ acts))) := by
  intro filtered acts h
  unfold buildMetricsAndTrend at h
  obtain ⟨confCol, hcc, h⟩ := exceptBind_ok h
  obtain ⟨tc, htc, h⟩ := exceptBind_ok h
  obtain ⟨deathsCol, hdc, h⟩ := exceptBind_ok h
  obtain ⟨td, htd, h⟩ := exceptBind_ok h
  obtain ⟨recCol, hrc, h⟩ := exceptBind_ok h
  obtain ⟨trec, htrec, h⟩ := exceptBind_ok h
  dsimp only at h
  have hacts : acts =
      [RenderAction.metric "Total Confirmed" (formatThousands tc),
       RenderAction.metric "Total Deaths" (formatThousands td),
       RenderAction.metric "Total Recovered" (recMetricValue trec),
       RenderAction.lineChart filtered "date"
         ("confirmed" :: "deaths" :: if trec.isSome = true then ["recovered"] else [])] := by
    have h2 := h.symm
    simp only [Pure.pure, Except.pure, Except.ok.injEq] at h2
    rw [h2]
    rfl
  obtain ⟨hcm1, hcm2⟩ := colMaxCell_spec (pyInt_inv htc)
  obtain ⟨hdm1, hdm2⟩ := colMaxCell_spec (pyInt_inv htd)
  refine ⟨⟨confCol, tc, hcc, hcm1, hcm2, by rw [hacts]; simp⟩,
    ⟨deathsCol, td, hdc, hdm1, hdm2, by rw [hacts]; simp⟩,
    ⟨recCol, hrc, ?_⟩⟩
  unfold totalRecovered at htrec
  by_cases hany : recCol.any cellNotNa = true
  · rw [if_pos hany] at htrec
    obtain ⟨v, hv, hpure⟩ := exceptBind_ok htrec
    have htv : trec = some v := by simpa [Pure.pure, Except.pure] using hpure.symm
    subst htv
    obtain ⟨hrm1, hrm2⟩ := colMaxCell_spec (pyInt_inv hv)
    refine Or.inl ⟨v, hrm1, hrm2, ?_⟩
    rw [hacts]
    simp [recMetricValue]
  · rw [if_neg hany] at htrec
    have htv : trec = none := by simpa [Pure.pure, Except.pure] using htrec.symm
    subst htv
    refine Or.inr ⟨by simpa using hany, ?_⟩
    rw [hacts]
    simp [recMetricValue]



/-- Witness for C6 on the concrete table: the confirmed card shows the
column maximum with separators. -/
theorem c6_witness :
    ∃ confCol m, histDf1.getCol "confirmed" = Except.ok confCol ∧
      Cell.int m ∈ confCol ∧ (∀ n, Cell.int n ∈ confCol → n ≤ m) ∧
      RenderAction.metric "Total Confirmed" (formatThousands m) ∈ c4Acts :=
  (c6_theorem histDf1 c4Acts rfl).1


/-! ### Claim C7: the country snapshot table -/


theorem select_inv {df df2 : DataFrame} {cs : List String}
    (h : df.select cs = Except.ok df2) :
    df2.cols = cs ∧ ∀ row ∈ df2.rows, row.length = cs.length := by
  unfold DataFrame.select at h
  cases hm : cs.mapM (fun c =>
      match df.colIndex c with
      | some i => Except.ok i
      | none => Except.error (PyError.keyError c)) with
  | error e => rw [hm] at h; exact absurd h (by simp)
  | ok idxs =>
    rw [hm] at h
    dsimp only at h
    rw [Except.ok.injEq] at h
    have hlen : cs.length = idxs.length := (exceptMapM_forall2 hm).length_eq
    rw [← h]
    refine ⟨rfl, ?_⟩
    intro row hrow
    dsimp only at hrow
    rw [List.mem_map] at hrow
    obtain ⟨r, hr, hre⟩ := hrow
    rw [← hre]
    simp [hlen]

theorem countryBody_shape {j : Json} {df : DataFrame}
    (h : countryBody j = Except.ok df) :
    df.cols = ["country", "cases", "deaths", "recovered", "lat", "long"] ∧
    ∀ row ∈ df.rows, row.length = 6 := by
  unfold countryBody at h
  obtain ⟨df0, h0, h⟩ := exceptBind_ok h
  obtain ⟨ci, hci, h⟩ := exceptBind_ok h
  obtain ⟨lats, hlats, h⟩ := exceptBind_ok h
  obtain ⟨ci2, hci2, h⟩ := exceptBind_ok h
  obtain ⟨longs, hlongs, h⟩ := exceptBind_ok h
  obtain ⟨hc, hr⟩ := select_inv h
  exact ⟨hc, fun row hrow => hr row hrow⟩

/-- An upstream snapshot body where the second record lacks the lat key
inside its countryInfo. -/
def c7Body : Json :=
  Json.arr
    [Json.obj
      [("country", Json.str "A"), ("cases", Json.num 1), ("deaths", Json.num 0),
       ("recovered", Json.num 0),
       ("countryInfo", Json.obj [("lat", Json.num 10), ("long", Json.num 20)])],
     Json.obj
      [("country", Json.str "B"), ("cases", Json.num 2), ("deaths", Json.num 1),
       ("recovered", Json.num 0),
       ("countryInfo", Json.obj [("long", Json.num 30)])]]

/-- An environment whose snapshot endpoint answers with that body. -/
def c7Env : FetchEnv := fun url =>
  if url == countriesUrl then some (HttpResponse.mk 200 c7Body) else none

/-- The snapshot table built from that body: the row with missing lat has
an absent lat value. -/
def c7Df : DataFrame :=
  DataFrame.mk ["country", "cases", "deaths", "recovered", "lat", "long"]
    [[Cell.str "A", Cell.int 1, Cell.int 0, Cell.int 0, Cell.int 10, Cell.int 20],
     [Cell.str "B", Cell.int 2, Cell.int 1, Cell.int 0, Cell.na, Cell.int 30]]

/-- C7: the snapshot builder keeps exactly the six named fields with lat
and long lifted from the nested geo dict; a nested dict lacking the lat
key yields an absent value, not an error, as the concrete run shows. -/
theorem c7_theorem :
    (∀ env log df log2, (load_country_data env).run log = Except.ok (df, log2) →
        df.cols = ["country", "cases", "deaths", "recovered", "lat", "long"] ∧
        ∀ row ∈ df.rows, row.length = 6)
  ∧ (∀ kvs key, jsonLookup kvs key = none →
        cellApplyGet key (Cell.json (Json.obj kvs)) = Except.ok Cell.na)
  ∧ (load_country_data c7Env).run [] = Except.ok (c7Df, [countriesUrl]) := by
  refine ⟨?_, ?_, rfl⟩
  · intro env log df log2 h
    obtain ⟨r, henv, hbody, hlog⟩ := load_country_ok_inv h
    exact countryBody_shape hbody
  · intro kvs key hnone
    unfold cellApplyGet
    dsimp only
    rw [hnone]

/-- Witness for C7 at the concrete snapshot run with a missing lat key. -/
theorem c7_witness :
    (c7Df.cols = ["country", "cases", "deaths", "recovered", "lat", "long"] ∧
      ∀ row ∈ c7Df.rows, row.length = 6)
  ∧ cellApplyGet "lat" (Cell.json (Json.obj [("long", Json.num 30)])) = Except.ok Cell.na :=
  ⟨c7_theorem.1 c7Env [] c7Df [countriesUrl] rfl,
   c7_theorem.2.1 [("long", Json.num 30)] "lat" rfl⟩


/-! ### Claim C8: the result cache -/

theorem cachedCall_hit {ttl : Nat} {k : CacheKey} {now : Nat} {body : PyM DataFrame}
    {db : List CacheEntry} {log : List String} {e : CacheEntry}
    (hl : cacheLookup db k = some e) (ht : now < e.storedAt + ttl) :
    cachedCall ttl k now body db log = Except.ok (e.value, db, log) := by
  unfold cachedCall
  rw [hl]
  dsimp only
  rw [if_pos ht]

theorem cachedCall_expired {ttl : Nat} {k : CacheKey} {now : Nat} {body : PyM DataFrame}
    {db : List CacheEntry} {log : List String} {e : CacheEntry}
    (hl : cacheLookup db k = some e) (ht : e.storedAt + ttl ≤ now) :
    cachedCall ttl k now body db log =
      match body.run log with
      | Except.error err => Except.error err
      | Except.ok (v, log2) =>
          Except.ok (v, CacheEntry.mk k now v ::
            db.filter (fun e2 => !(decide (e2.key = k))), log2) := by
  unfold cachedCall
  rw [hl]
  dsimp only
  rw [if_neg (by omega)]

/-- C8: for each of the three cached fetch functions, a call whose key
holds an entry younger than 3600 seconds returns the stored table with
the fetch log unchanged (no network call), a call at or past the ttl
re-runs the underlying fetch afresh and restores the entry, and a second
call with identical arguments within the ttl of a first call returns that
first result unchanged. -/
theorem c8_theorem :
    (∀ env country now db log (e : CacheEntry),
        cacheLookup db (CacheKey.mk "load_covid_data" [country]) = some e →
        (now < e.storedAt + 3600 →
          cachedLoadCovid env country now db log = Except.ok (e.value, db, log))
        ∧ (e.storedAt + 3600 ≤ now →
          cachedLoadCovid env country now db log =
            match (load_covid_data env country).run log with
            | Except.error err => Except.error err
            | Except.ok (v, log2) =>
                Except.ok (v,
                  CacheEntry.mk (CacheKey.mk "load_covid_data" [country]) now v ::
                    db.filter (fun e2 =>
                      !(decide (e2.key = CacheKey.mk "load_covid_data" [country]))), log2)))
  ∧ (∀ env c now db log (e : CacheEntry),
        cacheLookup db (CacheKey.mk "load_vaccine_data" [some c]) = some e →
        (now < e.storedAt + 3600 →
          cachedLoadVaccine env c now db log = Except.ok (e.value, db, log))
        ∧ (e.storedAt + 3600 ≤ now →
          cachedLoadVaccine env c now db log =
            match (load_vaccine_data env c).run log with
            | Except.error err => Except.error err
            | Except.ok (v, log2) =>
                Except.ok (v,
                  CacheEntry.mk (CacheKey.mk "load_vaccine_data" [some c]) now v ::
                    db.filter (fun e2 =>
                      !(decide (e2.key = CacheKey.mk "load_vaccine_data" [some c]))), log2)))
  ∧ (∀ env now db log (e : CacheEntry),
        cacheLookup db (CacheKey.mk "load_country_data" []) = some e →
        (now < e.storedAt + 3600 →
          cachedLoadCountry env now db log = Except.ok (e.value, db, log))
        ∧ (e.storedAt + 3600 ≤ now →
          cachedLoadCountry env now db log =
            match (load_country_data env).run log with
            | Except.error err => Except.error err
            | Except.ok (v, log2) =>
                Except.ok (v,
                  CacheEntry.mk (CacheKey.mk "load_country_data" []) now v ::
                    db.filter (fun e2 =>
                      !(decide (e2.key = CacheKey.mk "load_country_data" []))), log2)))
  ∧ (∀ env country t1 t2 v db1 log1,
        cachedLoadCovid env country t1 [] [] = Except.ok (v, db1, log1) →
        t2 < t1 + 3600 →
        cachedLoadCovid env country t2 db1 log1 = Except.ok (v, db1, log1)) := by
  refine ⟨?_, ?_, ?_, ?_⟩
  · intro env country now db log e hl
    exact ⟨fun ht => cachedCall_hit hl ht, fun ht => cachedCall_expired hl ht⟩
  · intro env c now db log e hl
    exact ⟨fun ht => cachedCall_hit hl ht, fun ht => cachedCall_expired hl ht⟩
  · intro env now db log e hl
    exact ⟨fun ht => cachedCall_hit hl ht, fun ht => cachedCall_expired hl ht⟩
  · intro env country t1 t2 v db1 log1 h1 ht
    unfold cachedLoadCovid cachedCall at h1
    have hlk : cacheLookup [] (CacheKey.mk "load_covid_data" [country]) = none := rfl
    rw [hlk] at h1
    dsimp only at h1
    cases hr : (load_covid_data env country).run [] with
    | error err => rw [hr] at h1; exact absurd h1 (by simp)
    | ok p =>
      rw [hr] at h1
      dsimp only at h1
      rw [Except.ok.injEq, Prod.mk.injEq, Prod.mk.injEq] at h1
      obtain ⟨hv, hdb, hlog⟩ := h1
      have hlk2 : cacheLookup
          [CacheEntry.mk (CacheKey.mk "load_covid_data" [country]) t1 p.1]
          (CacheKey.mk "load_covid_data" [country]) =
          some (CacheEntry.mk (CacheKey.mk "load_covid_data" [country]) t1 p.1) := by
        unfold cacheLookup
        simp [List.find?]
      unfold cachedLoadCovid
      rw [← hv, ← hlog, ← hdb]
      rw [cachedCall_hit hlk2 (by dsimp only; omega)]



/-- The cache key of the global history call. -/
def c8Key : CacheKey := CacheKey.mk "load_covid_data" [none]

/-- A cache entry for the global history call stored at time 0. -/
def c8Entry : CacheEntry := CacheEntry.mk c8Key 0 scenarioDf

/-- Witness for C8: at time 100 the cached table answers with no new
fetch in the log; at time 3600 the entry has expired and the log shows a
second GET. -/
theorem c8_witness :
    cachedLoadCovid scenarioEnv none 100 [c8Entry] [histAllUrl] =
      Except.ok (scenarioDf, [c8Entry], [histAllUrl])
  ∧ cachedLoadCovid scenarioEnv none 3600 [c8Entry] [histAllUrl] =
      Except.ok (scenarioDf, [CacheEntry.mk c8Key 3600 scenarioDf],
        [histAllUrl, histAllUrl]) := by
  constructor
  · exact (c8_theorem.1 scenarioEnv none 100 [c8Entry] [histAllUrl] c8Entry rfl).1
      (by decide)
  · have h := (c8_theorem.1 scenarioEnv none 3600 [c8Entry] [histAllUrl] c8Entry rfl).2
      (by decide)
    rw [h]
    rfl


/-! ### Claim C9: the country control and the vaccine path -/

theorem pymBind_ok {α β : Type} {x : PyM α} {f : α → PyM β} {b : β} {log log2 : List String}
    (h : (x >>= f).run log = Except.ok (b, log2)) :
    ∃ a logMid, x.run log = Except.ok (a, logMid) ∧ (f a).run logMid = Except.ok (b, log2) := by
  rw [bind_run] at h
  cases hx : x.run log with
  | error e => rw [hx] at h; exact absurd h (by simp)
  | ok p => rw [hx] at h; exact ⟨p.1, p.2, rfl, h⟩

theorem liftExcept_ok_inv {α : Type} {x : Except PyError α} {b : α} {log log2 : List String}
    (h : (liftExcept x).run log = Except.ok (b, log2)) :
    x = Except.ok b ∧ log2 = log := by
  rw [liftExcept_run] at h
  cases hx : x with
  | error e => rw [hx] at h; exact absurd h (by simp)
  | ok a =>
    rw [hx] at h
    dsimp only at h
    rw [Except.ok.injEq, Prod.mk.injEq] at h
    exact ⟨by rw [h.1], h.2.symm⟩

theorem pure_run {α : Type} (a : α) (log : List String) :
    (pure a : PyM α).run log = Except.ok (a, log) := rfl

theorem pymPure_ok_inv {α : Type} {a b : α} {log log2 : List String}
    (h : (pure a : PyM α).run log = Except.ok (b, log2)) : b = a ∧ log2 = log := by
  rw [pure_run] at h
  rw [Except.ok.injEq, Prod.mk.injEq] at h
  exact ⟨h.1.symm, h.2.symm⟩

theorem buildMetricsAndTrend_no_info {filtered : DataFrame} {acts : List RenderAction}
    (h : buildMetricsAndTrend filtered = Except.ok acts) :
    ∀ msg, RenderAction.info msg ∉ acts := by
  unfold buildMetricsAndTrend at h
  obtain ⟨confCol, hcc, h⟩ := exceptBind_ok h
  obtain ⟨tc, htc, h⟩ := exceptBind_ok h
  obtain ⟨deathsCol, hdc, h⟩ := exceptBind_ok h
  obtain ⟨td, htd, h⟩ := exceptBind_ok h
  obtain ⟨recCol, hrc, h⟩ := exceptBind_ok h
  obtain ⟨trec, htrec, h⟩ := exceptBind_ok h
  dsimp only at h
  have hacts : acts =
      [RenderAction.metric "Total Confirmed" (formatThousands tc),
       RenderAction.metric "Total Deaths" (formatThousands td),
       RenderAction.metric "Total Recovered" (recMetricValue trec),
       RenderAction.lineChart filtered "date"
         ("confirmed" :: "deaths" :: if trec.isSome = true then ["recovered"] else [])] := by
    have h2 := h.symm
    simp only [Pure.pure, Except.pure, Except.ok.injEq] at h2
    rw [h2]
    rfl
  rw [hacts]
  intro msg hmem
  rcases List.mem_cons.mp hmem with h1 | hmem
  · cases h1
  rcases List.mem_cons.mp hmem with h1 | hmem
  · cases h1
  rcases List.mem_cons.mp hmem with h1 | hmem
  · cases h1
  rcases List.mem_cons.mp hmem with h1 | hmem
  · cases h1
  exact absurd hmem (by simp)

theorem vaccineSection_no_info {c : String} {df : DataFrame} {acts : List RenderAction}
    (h : vaccineSection c df = Except.ok acts) :
    ∀ msg, RenderAction.info msg ∉ acts := by
  unfold vaccineSection at h
  by_cases he : df.rows.isEmpty = true
  · rw [if_pos he] at h
    rw [Except.ok.injEq] at h
    rw [← h]
    intro msg hmem
    rcases List.mem_cons.mp hmem with h1 | hmem
    · cases h1
    exact absurd hmem (by simp)
  · rw [if_neg he] at h
    cases hg : df.getCol "total" with
    | error e => rw [hg] at h; exact absurd h (by simp)
    | ok totCol =>
      rw [hg] at h
      dsimp only at h
      cases hp : pyInt (colMaxCell totCol) with
      | error e => rw [hp] at h; exact absurd h (by simp)
      | ok tv =>
        rw [hp] at h
        dsimp only at h
        rw [Except.ok.injEq] at h
        rw [← h]
        intro msg hmem
        rcases List.mem_cons.mp hmem with h1 | hmem
        · cases h1
        rcases List.mem_cons.mp hmem with h1 | hmem
        · cases h1
        rcases List.mem_cons.mp hmem with h1 | hmem
        · cases h1
        exact absurd hmem (by simp)

theorem vaccineUrl_ne (c : String) :
    vaccineUrl c ≠ countriesUrl ∧ vaccineUrl c ≠ histAllUrl := by
  have hpre : String.length "https://disease.sh/v3/covid-19/vaccine/coverage/countries/" = 58 :=
    rfl
  have hsuf : String.length "?lastdays=all&fullData=true" = 27 := rfl
  have hcu : String.length countriesUrl = 40 := rfl
  have hha : String.length histAllUrl = 58 := rfl
  constructor
  · intro heq
    have hlen := congrArg String.length heq
    rw [vaccineUrl, String.length_append, String.length_append, hpre, hsuf, hcu] at hlen
    omega
  · intro heq
    have hlen := congrArg String.length heq
    rw [vaccineUrl, String.length_append, String.length_append, hpre, hsuf, hha] at hlen
    omega



/-- C9: the country control is the fixed nine-entry list headed by
Global; Global maps to no country filter and a Global render pass fetches
exactly the snapshot list and the global history (no vaccination URL,
which differs from both), emitting the info message; any other fixed
option maps to its own identifier and its render pass fetches the
snapshot list, that country history and that country vaccination data,
with no info message rendered. -/
theorem c9_theorem :
    countryOptions.length = 9
  ∧ countryOptions.head? = some "Global"
  ∧ useCountry "Global" = none
  ∧ (∀ c, c ≠ "Global" → useCountry c = some c)
  ∧ (∀ env (inp : UserInput) acts log log2, inp.countryChoice = "Global" →
        (renderPass env inp).run log = Except.ok (acts, log2) →
        log2 = log ++ [countriesUrl, histAllUrl] ∧
        RenderAction.info "Select a specific country to view vaccination data." ∈ acts)
  ∧ (∀ env (inp : UserInput) acts log log2,
        inp.countryChoice ∈ countryOptions → inp.countryChoice ≠ "Global" →
        (renderPass env inp).run log = Except.ok (acts, log2) →
        log2 = log ++ [countriesUrl, histCountryUrl inp.countryChoice,
          vaccineUrl inp.countryChoice] ∧
        (∀ msg, RenderAction.info msg ∉ acts))
  ∧ (∀ c, vaccineUrl c ≠ countriesUrl ∧ vaccineUrl c ≠ histAllUrl) := by
  refine ⟨rfl, rfl, rfl, ?_, ?_, ?_, vaccineUrl_ne⟩
  · intro c hne
    unfold useCountry
    rw [if_pos]
    simpa using hne
  · intro env inp acts log log2 hc h
    unfold renderPass at h
    obtain ⟨dfc, l1, h1, h⟩ := pymBind_ok h
    dsimp only at h
    rw [hc] at h
    have hu : useCountry "Global" = none := rfl
    rw [hu] at h
    obtain ⟨df, l2, h2, h⟩ := pymBind_ok h
    obtain ⟨mainActs, l3, h3, h⟩ := pymBind_ok h
    obtain ⟨vaxActs, l4, h4, h⟩ := pymBind_ok h
    obtain ⟨hacts, hlog2⟩ := pymPure_ok_inv h
    obtain ⟨r1, henv1, hb1, hl1⟩ := load_country_ok_inv h1
    rw [load_covid_eq_fetchChecked_global env none covid_cond_none] at h2
    obtain ⟨r2, henv2, hst2, hb2, hl2⟩ := fetchChecked_ok_inv h2
    obtain ⟨hys, hl3⟩ := liftExcept_ok_inv h3
    have hvs : vaccineSectionActs env none =
        pure [RenderAction.info "Select a specific country to view vaccination data."] := rfl
    rw [hvs] at h4
    obtain ⟨hvax, hl4⟩ := pymPure_ok_inv h4
    constructor
    · rw [hlog2, hl4, hl3, hl2, hl1]
      simp
    · rw [hacts, hvax]
      simp
  · intro env inp acts log log2 hmem hne h
    have hlow : (pyLower inp.countryChoice == "global") = false := by
      simp only [countryOptions, List.mem_cons, List.not_mem_nil, or_false] at hmem
      rcases hmem with hm|hm|hm|hm|hm|hm|hm|hm|hm
      · exact absurd hm hne
      all_goals (rw [hm]; decide)
    have hu : useCountry inp.countryChoice = some inp.countryChoice := by
      unfold useCountry
      rw [if_pos]
      simpa using hne
    unfold renderPass at h
    obtain ⟨dfc, l1, h1, h⟩ := pymBind_ok h
    dsimp only at h
    rw [hu] at h
    obtain ⟨df, l2, h2, h⟩ := pymBind_ok h
    obtain ⟨mainActs, l3, h3, h⟩ := pymBind_ok h
    obtain ⟨vaxActs, l4, h4, h⟩ := pymBind_ok h
    obtain ⟨hacts, hlog2⟩ := pymPure_ok_inv h
    obtain ⟨r1, henv1, hb1, hl1⟩ := load_country_ok_inv h1
    rw [load_covid_eq_fetchChecked_country env (some inp.countryChoice)
      (covid_cond_some inp.countryChoice hlow)] at h2
    obtain ⟨r2, henv2, hst2, hb2, hl2⟩ := fetchChecked_ok_inv h2
    obtain ⟨hys, hl3⟩ := liftExcept_ok_inv h3
    have hvs : vaccineSectionActs env (some inp.countryChoice) =
        (load_vaccine_data env inp.countryChoice >>= fun df_vaccine =>
          liftExcept (vaccineSection inp.countryChoice df_vaccine)) := rfl
    rw [hvs] at h4
    obtain ⟨dfv, lv, hv1, hv2⟩ := pymBind_ok h4
    rw [load_vaccine_eq_fetchChecked] at hv1
    obtain ⟨r3, henv3, hst3, hb3, hlv⟩ := fetchChecked_ok_inv hv1
    obtain ⟨hvsec, hl4⟩ := liftExcept_ok_inv hv2
    constructor
    · rw [hlog2, hl4, hlv, hl3, hl2, hl1]
      simp
    · intro msg
      rw [hacts]
      intro hm
      rcases List.mem_append.mp hm with hm | hm
      · rcases List.mem_append.mp hm with hm | hm
        · rcases List.mem_cons.mp hm with hm | hm
          · cases hm
          · exact absurd hm (by simp)
        · obtain ⟨yc, filtered, _, _, hbmt⟩ := yearSelectAndMetrics_inv hys
          exact buildMetricsAndTrend_no_info hbmt msg hm
      · exact vaccineSection_no_info hvsec msg hm



/-- An environment serving all endpoints the render pass can touch. -/
def c9Env : FetchEnv := fun url =>
  if url == countriesUrl then some (HttpResponse.mk 200 c7Body)
  else if url == histAllUrl then some (HttpResponse.mk 200 histBody1)
  else if url == histCountryUrl "USA" then
    some (HttpResponse.mk 200 (Json.obj [("timeline", histBody1)]))
  else if url == vaccineUrl "USA" then
    some (HttpResponse.mk 200 (Json.obj [("timeline", Json.arr [])]))
  else none




/-- The actions of the concrete Global render pass. -/
def c9ActsGlobal : List RenderAction :=
  [RenderAction.bubbleMap c7Df,
   RenderAction.metric "Total Confirmed" "3",
   RenderAction.metric "Total Deaths" "1",
   RenderAction.metric "Total Recovered" "N/A",
   RenderAction.lineChart histDf1 "date" ["confirmed", "deaths"],
   RenderAction.info "Select a specific country to view vaccination data."]

/-- The actions of the concrete USA render pass. -/
def c9ActsUSA : List RenderAction :=
  [RenderAction.bubbleMap c7Df,
   RenderAction.metric "Total Confirmed" "3",
   RenderAction.metric "Total Deaths" "1",
   RenderAction.metric "Total Recovered" "N/A",
   RenderAction.lineChart histDf1 "date" ["confirmed", "deaths"],
   RenderAction.warning "No vaccination data available for USA."]

/-- Witness for C9 at two concrete render passes. -/
theorem c9_witness :
    ([countriesUrl, histAllUrl] = ([] : List String) ++ [countriesUrl, histAllUrl]
      ∧ RenderAction.info "Select a specific country to view vaccination data." ∈ c9ActsGlobal)
  ∧ (([countriesUrl, histCountryUrl "USA", vaccineUrl "USA"]
        = ([] : List String) ++ [countriesUrl, histCountryUrl "USA", vaccineUrl "USA"])
      ∧ (∀ msg, RenderAction.info msg ∉ c9ActsUSA)) :=
  ⟨c9_theorem.2.2.2.2.1 c9Env (UserInput.mk "Global" 2020) c9ActsGlobal []
      [countriesUrl, histAllUrl] rfl rfl,
   c9_theorem.2.2.2.2.2.1 c9Env (UserInput.mk "USA" 2020) c9ActsUSA []
      [countriesUrl, histCountryUrl "USA", vaccineUrl "USA"]
      (by decide) (by decide) rfl⟩


/-! ### Claim C10: the year dropdown and metric safety -/

theorem intList_contains_iff (l : List Int) (n : Int) : l.contains n = true ↔ n ∈ l := by
  induction l with
  | nil => simp
  | cons a t ih => simp [List.contains_cons, ih]

theorem uStep_nonint (acc : List Int) (x : Cell) (hx : ∀ v, x ≠ Cell.int v) :
    uStep acc x = acc := by
  cases x with
  | int v => exact absurd rfl (hx v)
  | na => rfl
  | str s => rfl
  | date d => rfl
  | bool b => rfl
  | json j => rfl

theorem uStep_int (acc : List Int) (k : Int) :
    uStep acc (Cell.int k) = if acc.contains k then acc else acc ++ [k] := rfl

theorem uniqueInts_foldl_mem (xs : List Cell) : ∀ (acc : List Int) (n : Int),
    (n ∈ xs.foldl uStep acc) ↔ (n ∈ acc ∨ Cell.int n ∈ xs) := by
  induction xs with
  | nil =>
    intro acc n
    rw [List.foldl_nil]
    simp
  | cons x t ih =>
    intro acc n
    rw [List.foldl_cons]
    rcases cell_int_or_not x with ⟨k, rfl⟩ | hnot
    · rw [uStep_int]
      by_cases hc : acc.contains k = true
      · rw [if_pos hc]
        rw [ih]
        constructor
        · rintro (h | h)
          · exact Or.inl h
          · exact Or.inr (List.mem_cons_of_mem _ h)
        · rintro (h | h)
          · exact Or.inl h
          · rcases List.mem_cons.mp h with h | h
            · injection h with h
              subst h
              exact Or.inl ((intList_contains_iff acc n).mp hc)
            · exact Or.inr h
      · rw [if_neg hc]
        rw [ih]
        constructor
        · rintro (h | h)
          · rcases List.mem_append.mp h with h | h
            · exact Or.inl h
            · rcases List.mem_cons.mp h with h | h
              · subst h
                exact Or.inr (List.mem_cons_self _ _)
              · exact absurd h (by simp)
          · exact Or.inr (List.mem_cons_of_mem _ h)
        · rintro (h | h)
          · exact Or.inl (List.mem_append.mpr (Or.inl h))
          · rcases List.mem_cons.mp h with h | h
            · injection h with h
              subst h
              exact Or.inl (List.mem_append.mpr (Or.inr (List.mem_cons_self _ _)))
            · exact Or.inr h
    · rw [uStep_nonint acc x hnot, ih]
      constructor
      · rintro (h | h)
        · exact Or.inl h
        · exact Or.inr (List.mem_cons_of_mem _ h)
      · rintro (h | h)
        · exact Or.inl h
        · rcases List.mem_cons.mp h with h | h
          · exact absurd h.symm (hnot n)
          · exact Or.inr h

theorem uniqueInts_foldl_nodup (xs : List Cell) : ∀ (acc : List Int), acc.Nodup →
    (xs.foldl uStep acc).Nodup := by
  induction xs with
  | nil =>
    intro acc h
    rw [List.foldl_nil]
    exact h
  | cons x t ih =>
    intro acc h
    rw [List.foldl_cons]
    rcases cell_int_or_not x with ⟨k, rfl⟩ | hnot
    · rw [uStep_int]
      by_cases hc : acc.contains k = true
      · rw [if_pos hc]
        exact ih acc h
      · rw [if_neg hc]
        refine ih _ ?_
        rw [List.nodup_append]
        refine ⟨h, List.nodup_singleton _, ?_⟩
        intro a ha hk
        rw [List.mem_singleton] at hk
        subst hk
        exact absurd ((intList_contains_iff acc a).mpr ha) (by simpa using hc)
    · rw [uStep_nonint acc x hnot]
      exact ih acc h

theorem uniqueInts_mem (xs : List Cell) (n : Int) : n ∈ uniqueInts xs ↔ Cell.int n ∈ xs := by
  unfold uniqueInts
  rw [uniqueInts_foldl_mem]
  simp

theorem uniqueInts_nodup (xs : List Cell) : (uniqueInts xs).Nodup := by
  unfold uniqueInts
  exact uniqueInts_foldl_nodup xs [] List.nodup_nil

theorem availableYearsOf_sorted (ys : List Cell) :
    List.Sorted (fun a b : Int => a ≤ b) (availableYearsOf ys) :=
  List.sorted_insertionSort _ _

theorem availableYearsOf_mem (ys : List Cell) (n : Int) :
    n ∈ availableYearsOf ys ↔ Cell.int n ∈ ys := by
  unfold availableYearsOf
  rw [(List.perm_insertionSort _ _).mem_iff]
  exact uniqueInts_mem ys n

theorem availableYearsOf_nodup (ys : List Cell) : (availableYearsOf ys).Nodup := by
  unfold availableYearsOf
  exact ((List.perm_insertionSort _ _).nodup_iff).mpr (uniqueInts_nodup ys)

theorem selectFromOptions_mem {options : List Int} (choice : Int) (h : options ≠ []) :
    ∃ y, selectFromOptions options choice = some y ∧ y ∈ options := by
  unfold selectFromOptions
  by_cases hc : options.contains choice = true
  · rw [if_pos hc]
    exact ⟨choice, rfl, (intList_contains_iff options choice).mp hc⟩
  · rw [if_neg hc]
    cases options with
    | nil => exact absurd rfl h
    | cons a t => exact ⟨a, rfl, List.mem_cons_self _ _⟩

theorem filterYearEq_inv_some {df df2 : DataFrame} {n : Int}
    (h : df.filterYearEq (some n) = Except.ok df2) :
    ∃ i, df.colIndex "year" = some i ∧ df2.cols = df.cols ∧
      df2.rows = df.rows.filter (fun r => cellEqInt (r.getD i Cell.na) n) := by
  unfold DataFrame.filterYearEq at h
  cases hg : df.getCol "year" with
  | error e => rw [hg] at h; exact absurd h (by simp)
  | ok ys =>
    rw [hg] at h
    dsimp only at h
    rw [Except.ok.injEq] at h
    obtain ⟨i, hidx, hys⟩ := getCol_inv hg
    refine ⟨i, hidx, ?_, ?_⟩
    · rw [← h]
    · rw [← h]
      dsimp only
      rw [hys, zip_map_self, List.filter_map, List.map_map]
      simp [Function.comp_def]



theorem buildMetricsAndTrend_ok {filtered : DataFrame} {confCol deathsCol recCol : List Cell}
    (h1 : filtered.getCol "confirmed" = Except.ok confCol)
    (hm1 : ∃ m, colMaxCell confCol = Cell.int m)
    (h2 : filtered.getCol "deaths" = Except.ok deathsCol)
    (hm2 : ∃ m, colMaxCell deathsCol = Cell.int m)
    (h3 : filtered.getCol "recovered" = Except.ok recCol)
    (hm3 : recCol.any cellNotNa = false ∨ ∃ m, colMaxCell recCol = Cell.int m) :
    ∃ acts, buildMetricsAndTrend filtered = Except.ok acts := by
  obtain ⟨m1, hv1⟩ := hm1
  obtain ⟨m2, hv2⟩ := hm2
  have htr : ∃ tr, totalRecovered recCol = Except.ok tr := by
    unfold totalRecovered
    by_cases hany : recCol.any cellNotNa = true
    · rw [if_pos hany]
      rcases hm3 with hm3 | ⟨m3, hv3⟩
      · rw [hm3] at hany
        exact absurd hany (by simp)
      · refine ⟨some m3, ?_⟩
        rw [hv3]
        rfl
    · rw [if_neg hany]
      exact ⟨none, rfl⟩
  obtain ⟨tr, htr⟩ := htr
  refine ⟨[RenderAction.metric "Total Confirmed" (formatThousands m1),
    RenderAction.metric "Total Deaths" (formatThousands m2),
    RenderAction.metric "Total Recovered" (recMetricValue tr),
    RenderAction.lineChart filtered "date"
      ("confirmed" :: "deaths" :: if tr.isSome = true then ["recovered"] else [])], ?_⟩
  unfold buildMetricsAndTrend
  rw [h1]
  simp only [Bind.bind, Except.bind]
  rw [hv1]
  simp only [pyInt, Bind.bind, Except.bind]
  rw [h2]
  simp only [Bind.bind, Except.bind]
  rw [hv2]
  simp only [pyInt, Bind.bind, Except.bind]
  rw [h3]
  simp only [Bind.bind, Except.bind]
  rw [htr]
  simp only [Bind.bind, Except.bind]
  rfl



/-- C10: for a non-empty loaded history table whose confirmed and deaths
cells are integers and whose recovered cells are integers or nulls, the
year dropdown offers exactly the distinct years present in the table in
ascending order, every offered year matches at least one row so the
year-filtered table is non-empty, and the metric section succeeds for
every possible year choice. -/
theorem c10_theorem :
    ∀ env country log df log2 yearsCol,
      (load_covid_data env country).run log = Except.ok (df, log2) →
      df.rows ≠ [] →
      df.getCol "year" = Except.ok yearsCol →
      (∀ cs, df.getCol "confirmed" = Except.ok cs → ∀ x ∈ cs, ∃ k, x = Cell.int k) →
      (∀ cs, df.getCol "deaths" = Except.ok cs → ∀ x ∈ cs, ∃ k, x = Cell.int k) →
      (∀ cs, df.getCol "recovered" = Except.ok cs →
        ∀ x ∈ cs, (∃ k, x = Cell.int k) ∨ x = Cell.na) →
      List.Sorted (fun a b : Int => a ≤ b) (availableYearsOf yearsCol)
      ∧ (availableYearsOf yearsCol).Nodup
      ∧ (∀ n, n ∈ availableYearsOf yearsCol ↔ Cell.int n ∈ yearsCol)
      ∧ availableYearsOf yearsCol ≠ []
      ∧ (∀ y ∈ availableYearsOf yearsCol, ∃ filtered,
          df.filterYearEq (some y) = Except.ok filtered ∧ filtered.rows ≠ [])
      ∧ (∀ choice, ∃ acts, yearSelectAndMetrics df choice = Except.ok acts) := by
  intro env country log df log2 yearsCol hrun hne hy hconf hdeaths hrec
  -- structure of the loaded table
  have hfilter : ∃ dfPre, DataFrame.filterYearRange dfPre 2020 2023 = Except.ok df :=
    load_covid_ok_filter hrun
  -- recover the pipeline shape: redo the load inversion to get the frame
  have hpipe : ∃ frame, buildHistFrame frame = buildHistFrame frame := ⟨Json.null, rfl⟩
  -- cols and row shape via the pipeline lemma
  have hshape : df.cols = ["date", "confirmed", "deaths", "recovered", "year"] ∧
      ∀ row ∈ df.rows, ∃ s dt c d r,
        parseDate s = some dt ∧
        row = [Cell.date dt, c, d, r, Cell.int dt.year] ∧
        2020 ≤ dt.year ∧ dt.year ≤ 2023 := by
    by_cases hc : (country.isNone || pyLower (country.getD "") == "global") = true
    · rw [load_covid_eq_fetchChecked_global env country hc] at hrun
      obtain ⟨r, _, _, hbody, _⟩ := fetchChecked_ok_inv hrun
      unfold covidBodyGlobal at hbody
      obtain ⟨frame, hframe, hp⟩ := exceptBind_ok hbody
      obtain ⟨hfc, hfs⟩ := buildHistFrame_rows hframe
      have hfs2 : ∀ row ∈ frame.rows, ∃ s c d r, row = [Cell.str s, c, d, r] := by
        intro row hrow
        obtain ⟨s, c, d, r, he, _⟩ := hfs row hrow
        exact ⟨s, c, d, r, he⟩
      obtain ⟨h5, hrows⟩ := histPipeline_rows hfc hfs2 hp
      refine ⟨h5, ?_⟩
      intro row hrow
      obtain ⟨s, dt, c, d, r, hp1, _, hp3, hp4, hp5⟩ := hrows row hrow
      exact ⟨s, dt, c, d, r, hp1, hp3, hp4, hp5⟩
    · rw [load_covid_eq_fetchChecked_country env country (Bool.eq_false_iff.mpr hc)] at hrun
      obtain ⟨r, _, _, hbody, _⟩ := fetchChecked_ok_inv hrun
      unfold covidBodyCountry at hbody
      obtain ⟨tl, _, hrest⟩ := exceptBind_ok hbody
      obtain ⟨frame, hframe, hp⟩ := exceptBind_ok hrest
      obtain ⟨hfc, hfs⟩ := buildHistFrame_rows hframe
      have hfs2 : ∀ row ∈ frame.rows, ∃ s c d r, row = [Cell.str s, c, d, r] := by
        intro row hrow
        obtain ⟨s, c, d, r, he, _⟩ := hfs row hrow
        exact ⟨s, c, d, r, he⟩
      obtain ⟨h5, hrows⟩ := histPipeline_rows hfc hfs2 hp
      refine ⟨h5, ?_⟩
      intro row hrow
      obtain ⟨s, dt, c, d, r, hp1, _, hp3, hp4, hp5⟩ := hrows row hrow
      exact ⟨s, dt, c, d, r, hp1, hp3, hp4, hp5⟩
  obtain ⟨hcols5, hrowshape⟩ := hshape
  have hidxYear : df.colIndex "year" = some 4 := by
    unfold DataFrame.colIndex
    rw [hcols5]
    rfl
  have hyc : df.getCol "year" = Except.ok (df.rows.map (fun r => r.getD 4 Cell.na)) := by
    unfold DataFrame.getCol
    rw [hidxYear]
  have hycEq : yearsCol = df.rows.map (fun r => r.getD 4 Cell.na) := by
    rw [hy] at hyc
    injection hyc
  -- every year cell is an int
  have hyInt : ∀ x ∈ yearsCol, ∃ k, x = Cell.int k := by
    intro x hx
    rw [hycEq] at hx
    rw [List.mem_map] at hx
    obtain ⟨row, hrow, hxe⟩ := hx
    obtain ⟨s, dt, c, d, r, _, hre, _, _⟩ := hrowshape row hrow
    refine ⟨dt.year, ?_⟩
    rw [← hxe, hre]
    rfl
  -- the option list is nonempty
  have havailne : availableYearsOf yearsCol ≠ [] := by
    cases hrows : df.rows with
    | nil => exact absurd hrows hne
    | cons row0 rest =>
      have hmem0 : row0 ∈ df.rows := by rw [hrows]; exact List.mem_cons_self _ _
      obtain ⟨s, dt, c, d, r, _, hre, _, _⟩ := hrowshape row0 hmem0
      have hy0 : Cell.int dt.year ∈ yearsCol := by
        rw [hycEq, List.mem_map]
        exact ⟨row0, hmem0, by rw [hre]; rfl⟩
      have : dt.year ∈ availableYearsOf yearsCol := (availableYearsOf_mem _ _).mpr hy0
      exact List.ne_nil_of_mem this
  -- the filter keeps at least one row for every offered year
  have hfilterOne : ∀ y ∈ availableYearsOf yearsCol, ∃ filtered,
      df.filterYearEq (some y) = Except.ok filtered ∧ filtered.rows ≠ [] := by
    intro y hyMem
    have hyCell : Cell.int y ∈ yearsCol := (availableYearsOf_mem _ _).mp hyMem
    rw [hycEq, List.mem_map] at hyCell
    obtain ⟨row, hrowMem, hrowy⟩ := hyCell
    have hzip : ((df.rows.zip (df.rows.map (fun r => r.getD 4 Cell.na))).filter
        (fun p => cellEqInt p.2 y)).map Prod.fst =
        df.rows.filter (fun r => cellEqInt (r.getD 4 Cell.na) y) := by
      rw [zip_map_self, List.filter_map, List.map_map]
      simp [Function.comp_def]
    have hfeq : df.filterYearEq (some y) = Except.ok
        (DataFrame.mk df.cols (df.rows.filter (fun r => cellEqInt (r.getD 4 Cell.na) y))) := by
      unfold DataFrame.filterYearEq
      rw [hyc]
      dsimp only
      rw [hzip]
    refine ⟨_, hfeq, ?_⟩
    have hpass : cellEqInt (row.getD 4 Cell.na) y = true := by
      rw [hrowy]
      simp [cellEqInt]
    have hmemf : row ∈ df.rows.filter (fun r => cellEqInt (r.getD 4 Cell.na) y) :=
      List.mem_filter.mpr ⟨hrowMem, hpass⟩
    exact List.ne_nil_of_mem hmemf
  refine ⟨availableYearsOf_sorted yearsCol, availableYearsOf_nodup yearsCol,
    fun n => availableYearsOf_mem yearsCol n, havailne, hfilterOne, ?_⟩
  -- the metric section always succeeds
  intro choice
  obtain ⟨y0, hsel, hy0Mem⟩ := selectFromOptions_mem choice havailne
  obtain ⟨filteredDf, hfeq, hfne⟩ := hfilterOne y0 hy0Mem
  -- structure of the filtered table
  obtain ⟨i, hidx, hfcols, hfrows⟩ := filterYearEq_inv_some hfeq
  rw [hidxYear] at hidx
  injection hidx with hidx
  subst hidx
  -- column reads on the filtered table
  have hfidx1 : filteredDf.colIndex "confirmed" = some 1 := by
    unfold DataFrame.colIndex
    rw [hfcols, hcols5]
    rfl
  have hfidx2 : filteredDf.colIndex "deaths" = some 2 := by
    unfold DataFrame.colIndex
    rw [hfcols, hcols5]
    rfl
  have hfidx3 : filteredDf.colIndex "recovered" = some 3 := by
    unfold DataFrame.colIndex
    rw [hfcols, hcols5]
    rfl
  have hgc1 : filteredDf.getCol "confirmed" =
      Except.ok (filteredDf.rows.map (fun r => r.getD 1 Cell.na)) := by
    unfold DataFrame.getCol
    rw [hfidx1]
  have hgc2 : filteredDf.getCol "deaths" =
      Except.ok (filteredDf.rows.map (fun r => r.getD 2 Cell.na)) := by
    unfold DataFrame.getCol
    rw [hfidx2]
  have hgc3 : filteredDf.getCol "recovered" =
      Except.ok (filteredDf.rows.map (fun r => r.getD 3 Cell.na)) := by
    unfold DataFrame.getCol
    rw [hfidx3]
  -- the df-level getCol facts feeding the cell hypotheses
  have hdgc1 : df.getCol "confirmed" = Except.ok (df.rows.map (fun r => r.getD 1 Cell.na)) := by
    unfold DataFrame.getCol DataFrame.colIndex
    rw [hcols5]
    rfl
  have hdgc2 : df.getCol "deaths" = Except.ok (df.rows.map (fun r => r.getD 2 Cell.na)) := by
    unfold DataFrame.getCol DataFrame.colIndex
    rw [hcols5]
    rfl
  have hdgc3 : df.getCol "recovered" = Except.ok (df.rows.map (fun r => r.getD 3 Cell.na)) := by
    unfold DataFrame.getCol DataFrame.colIndex
    rw [hcols5]
    rfl
  have hsub : ∀ row ∈ filteredDf.rows, row ∈ df.rows := by
    intro row hrow
    rw [hfrows] at hrow
    exact (List.mem_filter.mp hrow).1
  -- a nonempty all-int column has an int max
  obtain ⟨row0, hrow0⟩ : ∃ row0, row0 ∈ filteredDf.rows := by
    cases hr : filteredDf.rows with
    | nil => exact absurd hr hfne
    | cons a t => exact ⟨a, List.mem_cons_self _ _⟩
  have hmax1 : ∃ m, colMaxCell (filteredDf.rows.map (fun r => r.getD 1 Cell.na)) = Cell.int m := by
    apply colMaxCell_is_int
    obtain ⟨k, hk⟩ := hconf _ hdgc1 (row0.getD 1 Cell.na)
      (List.mem_map.mpr ⟨row0, hsub row0 hrow0, rfl⟩)
    exact ⟨k, by rw [← hk]; exact List.mem_map.mpr ⟨row0, hrow0, rfl⟩⟩
  have hmax2 : ∃ m, colMaxCell (filteredDf.rows.map (fun r => r.getD 2 Cell.na)) = Cell.int m := by
    apply colMaxCell_is_int
    obtain ⟨k, hk⟩ := hdeaths _ hdgc2 (row0.getD 2 Cell.na)
      (List.mem_map.mpr ⟨row0, hsub row0 hrow0, rfl⟩)
    exact ⟨k, by rw [← hk]; exact List.mem_map.mpr ⟨row0, hrow0, rfl⟩⟩
  have hmax3 : (filteredDf.rows.map (fun r => r.getD 3 Cell.na)).any cellNotNa = false ∨
      ∃ m, colMaxCell (filteredDf.rows.map (fun r => r.getD 3 Cell.na)) = Cell.int m := by
    by_cases hany : (filteredDf.rows.map (fun r => r.getD 3 Cell.na)).any cellNotNa = true
    · refine Or.inr ?_
      apply colMaxCell_is_int
      rw [List.any_eq_true] at hany
      obtain ⟨x, hxmem, hxnotna⟩ := hany
      have hxdf : x ∈ df.rows.map (fun r => r.getD 3 Cell.na) := by
        rw [List.mem_map] at hxmem
        obtain ⟨row, hrow, hxe⟩ := hxmem
        exact List.mem_map.mpr ⟨row, hsub row hrow, hxe⟩
      rcases hrec _ hdgc3 x hxdf with ⟨k, hk⟩ | hna
      · exact ⟨k, by rw [← hk]; exact hxmem⟩
      · rw [hna] at hxnotna
        exact absurd hxnotna (by simp [cellNotNa])
    · exact Or.inl (by simpa using hany)
  obtain ⟨acts, hbmt⟩ := buildMetricsAndTrend_ok hgc1 hmax1 hgc2 hmax2 hgc3 hmax3
  refine ⟨acts, ?_⟩
  unfold yearSelectAndMetrics
  rw [hy]
  simp only [Bind.bind, Except.bind]
  rw [hsel, hfeq]
  simp only [Bind.bind, Except.bind]
  exact hbmt



/-- Witness for C10 on the concrete global run. -/
theorem c10_witness :
    List.Sorted (fun a b : Int => a ≤ b) (availableYearsOf [Cell.int 2020, Cell.int 2020])
    ∧ (availableYearsOf [Cell.int 2020, Cell.int 2020]).Nodup
    ∧ (∀ n, n ∈ availableYearsOf [Cell.int 2020, Cell.int 2020] ↔
        Cell.int n ∈ [Cell.int 2020, Cell.int 2020])
    ∧ availableYearsOf [Cell.int 2020, Cell.int 2020] ≠ []
    ∧ (∀ y ∈ availableYearsOf [Cell.int 2020, Cell.int 2020], ∃ filtered,
        histDf1.filterYearEq (some y) = Except.ok filtered ∧ filtered.rows ≠ [])
    ∧ (∀ choice, ∃ acts, yearSelectAndMetrics histDf1 choice = Except.ok acts) := by
  refine c10_theorem env1 none [] histDf1 [histAllUrl] [Cell.int 2020, Cell.int 2020]
    rfl ?_ rfl ?_ ?_ ?_
  · simp [histDf1]
  · intro cs hcs
    have hcseq : cs = [Cell.int 1, Cell.int 3] := by
      have h2 : (Except.ok [Cell.int 1, Cell.int 3] : Except PyError (List Cell))
          = Except.ok cs := hcs
      injection h2 with hh
      exact hh.symm
    subst hcseq
    intro x hx
    rcases List.mem_cons.mp hx with h | h
    · exact ⟨1, h⟩
    rcases List.mem_cons.mp h with h | h
    · exact ⟨3, h⟩
    · exact absurd h (by simp)
  · intro cs hcs
    have hcseq : cs = [Cell.int 0, Cell.int 1] := by
      have h2 : (Except.ok [Cell.int 0, Cell.int 1] : Except PyError (List Cell))
          = Except.ok cs := hcs
      injection h2 with hh
      exact hh.symm
    subst hcseq
    intro x hx
    rcases List.mem_cons.mp hx with h | h
    · exact ⟨0, h⟩
    rcases List.mem_cons.mp h with h | h
    · exact ⟨1, h⟩
    · exact absurd h (by simp)
  · intro cs hcs
    have hcseq : cs = [Cell.na, Cell.na] := by
      have h2 : (Except.ok [Cell.na, Cell.na] : Except PyError (List Cell))
          = Except.ok cs := hcs
      injection h2 with hh
      exact hh.symm
    subst hcseq
    intro x hx
    rcases List.mem_cons.mp hx with h | h
    · exact Or.inr h
    rcases List.mem_cons.mp h with h | h
    · exact Or.inr h
    · exact absurd h (by simp)

end CovidDash
